import Mathlib

/-!
Verification development for the shade-aware routing engine of a UV shade-map
application (CoolWalks routing, building-shadow projection, shade-weighted
A* pathfinding, UV exposure model).

Modelling conventions:
* JavaScript numbers are modelled as rationals (`ℚ`); `Math.round` is
  `jsRound` (round half toward positive infinity, the ECMAScript rule);
  an `Infinity` result is modelled with `Option` (`none` = `Infinity`).
* Transcendental functions (`Math.sin`, `Math.cos`, `Math.tan`, `Math.PI`)
  and the haversine `calculateDistance` have no exact rational embedding;
  they are taken as explicit parameters (`JsMath`, `calculateDistance`), so
  every theorem below quantifies over all interpretations of them.
* `Array.prototype.sort` (stable since ES2019) is modelled with a stable
  insertion sort.
-/

/-- JavaScript `Math.round`: round half toward positive infinity. -/
def jsRound (q : ℚ) : ℤ := ⌊q + 1/2⌋

/-- The cyclic edge pairs `(polygon[i], polygon[j])`, `j = i-1` (with
`j = n-1` for `i = 0`), visited by the `for (i = 0, j = n - 1; i < n; j = i++)`
ray-casting loops. -/
def cyclicPairs {α : Type} (l : List α) : List (α × α) :=
  match l.getLast? with
  | none => []
  | some last => l.zip (last :: l.dropLast)

/-- `Coordinate` / `RoutePoint` `{latitude, longitude}` record shared by the
geometry modules. -/
structure Coordinate where
  latitude : ℚ
  longitude : ℚ
deriving DecidableEq, Repr

/-- `Building` of `src/lib/shade-calculator.ts`. -/
structure Building where
  id : String
  coordinates : List Coordinate
  height : ℚ
deriving DecidableEq, Repr

/-- The transcendental `Math` functions used by the shadow projector; they have
no rational embedding, so they are an arbitrary parameter. `pi` models the
double constant `Math.PI`. -/
structure JsMath where
  pi : ℚ
  sin : ℚ → ℚ
  cos : ℚ → ℚ
  tan : ℚ → ℚ

namespace CoolWalks

/- Embedding of `src/lib/coolwalks-routing.ts`. -/

/-- `RouteSegment` of coolwalks-routing.ts. -/
structure RouteSegment where
  id : String
  sunDistance : ℚ
  shadeDistance : ℚ
  totalDistance : ℚ
  shadeRatio : ℚ
deriving DecidableEq, Repr

/-- `Route` of coolwalks-routing.ts. -/
structure Route where
  id : String
  name : String
  segments : List RouteSegment
  totalDistance : ℚ
  totalSunDistance : ℚ
  totalShadeDistance : ℚ
  shadeRatio : ℚ
  estimatedTime : ℚ
deriving DecidableEq, Repr

/-- `calculateExperiencedLength`: λ = sun × α + shade. -/
def calculateExperiencedLength (sunDistance shadeDistance alpha : ℚ) : ℚ :=
  sunDistance * alpha + shadeDistance

/-- `calculateRouteExperiencedLength`: reduce over the segments. -/
def calculateRouteExperiencedLength (route : Route) (alpha : ℚ) : ℚ :=
  route.segments.foldl
    (fun total segment =>
      total + calculateExperiencedLength segment.sunDistance segment.shadeDistance alpha) 0

/-- `getRecommendedAlpha` of coolwalks-routing.ts. -/
def getRecommendedAlpha (uvIndex skinTypeSensitivity : ℚ) : ℚ :=
  let baseAlpha : ℚ :=
    if uvIndex ≤ 2 then 1
    else if uvIndex ≤ 5 then 13/10
    else if uvIndex ≤ 7 then 8/5
    else if uvIndex ≤ 10 then 2
    else 5/2
  let sensitivityMultiplier : ℚ := 1 + (7 - skinTypeSensitivity) * (1/10)
  (jsRound (baseAlpha * sensitivityMultiplier * 10) : ℚ) / 10

/-- The UV-band base value of `getRecommendedAlpha`, named for the theorems. -/
def baseAlphaOf (uvIndex : ℚ) : ℚ :=
  if uvIndex ≤ 2 then 1
  else if uvIndex ≤ 5 then 13/10
  else if uvIndex ≤ 7 then 8/5
  else if uvIndex ≤ 10 then 2
  else 5/2

/-- `aggregateRouteInfo` result (the `Omit<Route, 'id' | 'name' | 'segments'>`
part). -/
structure AggregatedInfo where
  totalDistance : ℚ
  totalSunDistance : ℚ
  totalShadeDistance : ℚ
  shadeRatio : ℚ
  estimatedTime : ℚ
deriving DecidableEq, Repr

/-- `aggregateRouteInfo` of coolwalks-routing.ts. -/
def aggregateRouteInfo (segments : List RouteSegment) : AggregatedInfo :=
  let totalDistance := segments.foldl (fun sum s => sum + s.totalDistance) 0
  let totalSunDistance := segments.foldl (fun sum s => sum + s.sunDistance) 0
  let totalShadeDistance := segments.foldl (fun sum s => sum + s.shadeDistance) 0
  -- walking speed: 83.3 m/min
  let walkingSpeedMPerMin : ℚ := 833/10
  { totalDistance := totalDistance
    totalSunDistance := totalSunDistance
    totalShadeDistance := totalShadeDistance
    shadeRatio := if 0 < totalDistance then totalShadeDistance / totalDistance else 0
    estimatedTime := (jsRound (totalDistance / walkingSpeedMPerMin) : ℚ) }

/-- State scan of the `forEach` arg-min loop of `findOptimalShadeRoute`.
`(bv, b)` is the current best (value, index); `i` is the index of the head of
the remaining list. The loop updates only on a strict `<`, so earlier indices
win ties. -/
def scanMin : List ℚ → ℕ → ℚ × ℕ → ℚ × ℕ
  | [], _, best => best
  | x :: xs, i, (bv, b) =>
    if x < bv then scanMin xs (i + 1) (x, i) else scanMin xs (i + 1) (bv, b)

/-- The `minExperienced = Infinity; optimalIndex = 0` initial state collapses to
`(first value, 0)` after the first iteration, since every finite value is
`< Infinity`. -/
def optimalIndexOf : List ℚ → ℕ
  | [] => 0
  | x :: xs => (scanMin xs 1 (x, 0)).2

/-- `lexLe (len, idx) (len', idx')`: the order realised by the stable JS
`sort((a, b) => a.length - b.length)` on `{length, index}` pairs. -/
def lexLe (a b : ℚ × ℕ) : Prop := a.1 < b.1 ∨ (a.1 = b.1 ∧ a.2 ≤ b.2)

/-- Strict part of `lexLe`. -/
def lexLt (a b : ℚ × ℕ) : Prop := a.1 < b.1 ∨ (a.1 = b.1 ∧ a.2 < b.2)

instance : DecidableRel lexLe := fun _ _ => instDecidableOr

instance : IsTotal (ℚ × ℕ) lexLe := by
  constructor
  intro a b
  rcases lt_trichotomy a.1 b.1 with h | h | h
  · exact Or.inl (Or.inl h)
  · rcases Nat.le_total a.2 b.2 with h2 | h2
    · exact Or.inl (Or.inr ⟨h, h2⟩)
    · exact Or.inr (Or.inr ⟨h.symm, h2⟩)
  · exact Or.inr (Or.inl h)

instance : IsTrans (ℚ × ℕ) lexLe := by
  constructor
  intro a b c hab hbc
  rcases hab with h | ⟨h, h2⟩ <;> rcases hbc with h' | ⟨h', h2'⟩
  · exact Or.inl (lt_trans h h')
  · exact Or.inl (h'.symm ▸ h)
  · exact Or.inl (h ▸ h')
  · exact Or.inr ⟨h.trans h', le_trans h2 h2'⟩

/-- `experiencedLengths.map((length, index) => ({length, index}))`. -/
def pairsOf (lengths : List ℚ) : List (ℚ × ℕ) :=
  lengths.enum.map (fun p => (p.2, p.1))

/-- The `.sort((a, b) => a.length - b.length)` call (a stable sort by length;
by stability, equal lengths keep their original-index order, so the result is
exactly the `lexLe`-ordered permutation). -/
def sortedPairs (lengths : List ℚ) : List (ℚ × ℕ) :=
  List.insertionSort lexLe (pairsOf lengths)

/-- `.map(item => item.index)`. -/
def sortedIndices (lengths : List ℚ) : List ℕ :=
  (sortedPairs lengths).map Prod.snd

/-- `rankings[originalIndex] = rank + 1`: the scatter write of the source is
equivalent to this gather because `sortedIndices` lists each original index
exactly once. -/
def rankingsOf (lengths : List ℚ) : List ℕ :=
  (List.range lengths.length).map (fun i => (sortedIndices lengths).indexOf i + 1)

/-- Result record of `findOptimalShadeRoute`. -/
structure FindOptimalResult where
  optimalIndex : ℕ
  optimalRoute : Route
  experiencedLengths : List ℚ
  rankings : List ℕ
deriving DecidableEq, Repr

/-- `findOptimalShadeRoute` of coolwalks-routing.ts; `none` models the
`throw new Error('少なくとも1つのルートが必要です')` on an empty input.
`routes[optimalIndex]` is modelled with `getD` (the index is always in
bounds, see `findOptimalShadeRoute_valid_index`). -/
def findOptimalShadeRoute (routes : List Route) (alpha : ℚ) :
    Option FindOptimalResult :=
  match routes with
  | [] => none
  | r0 :: _ =>
    let experiencedLengths :=
      routes.map (fun route => calculateRouteExperiencedLength route alpha)
    let optimalIndex := optimalIndexOf experiencedLengths
    some
      { optimalIndex := optimalIndex
        optimalRoute := routes.getD optimalIndex r0
        experiencedLengths := experiencedLengths
        rankings := rankingsOf experiencedLengths }

/-- The spec-scenario routes: `(sunDist, shadeDist) = (150,50), (50,200),
(100,100)`, each as a single segment. -/
def demoRoutes : List Route :=
  [ ⟨"r0", "A", [⟨"s0", 150, 50, 200, 1/4⟩], 200, 150, 50, 1/4, 2⟩,
    ⟨"r1", "B", [⟨"s1", 50, 200, 250, 4/5⟩], 250, 50, 200, 4/5, 3⟩,
    ⟨"r2", "C", [⟨"s2", 100, 100, 200, 1/2⟩], 200, 100, 100, 1/2, 2⟩ ]

end CoolWalks

namespace ScientificUV

/- Embedding of `src/lib/scientific-uv-calculator.ts`. -/

/-- Skin phototypes I..VI (the `SkinType` union imported from `constants/uv`;
its six members are pinned by the `Record<SkinType, _>` tables in
scientific-uv-calculator.ts). -/
inductive SkinType where
  | I | II | III | IV | V | VI
deriving DecidableEq, Repr

/-- `BASE_EXPOSURE_TIME_MINUTES` table (DIN-5050 base minutes at UVI = 1). -/
def BASE_EXPOSURE_TIME_MINUTES : SkinType → ℚ
  | .I => 67
  | .II => 100
  | .III => 200
  | .IV => 300
  | .V => 400
  | .VI => 500

/-- `calculateSafeExposureTime`; `none` models the JS `Infinity` sentinel. -/
def calculateSafeExposureTime (uvIndex : ℚ) (skinType : SkinType) : Option ℚ :=
  if uvIndex ≤ 0 then none
  else
    let baseTime := BASE_EXPOSURE_TIME_MINUTES skinType
    let safeTime := baseTime / uvIndex
    some (jsRound safeTime : ℚ)

end ScientificUV

namespace AdvancedShade

/- Embedding of `src/lib/advanced-shade-calculator.ts`. -/

/-- `SunPosition` record. `altitude`/`azimuth` are radians, the `Degrees`
fields are the degree values computed by `getSunPosition` (an astronomy
routine outside the rational fragment, so a `SunPosition` here is arbitrary). -/
structure SunPosition where
  altitude : ℚ
  azimuth : ℚ
  altitudeDegrees : ℚ
  azimuthDegrees : ℚ
deriving DecidableEq, Repr

/-- `ShadowPolygon` record. -/
structure ShadowPolygon where
  buildingId : String
  coordinates : List Coordinate
  opacity : ℚ
deriving DecidableEq, Repr

/-- `isSunAboveHorizon`: altitude strictly above zero. -/
def isSunAboveHorizon (sunPosition : SunPosition) : Bool :=
  decide (0 < sunPosition.altitude)

/-- `calculateBuildingShadow`, parametrised by the `Math` functions. -/
def calculateBuildingShadow (M : JsMath) (building : Building)
    (sunPosition : SunPosition) (latitude : ℚ) : Option ShadowPolygon :=
  if ¬ isSunAboveHorizon sunPosition then none
  else
    let shadowLength := building.height / M.tan sunPosition.altitude
    if shadowLength ≤ 0 ∨ 500 < shadowLength then none
    else
      let shadowDirection := sunPosition.azimuth + M.pi
      let metersPerDegreeLat : ℚ := 111320
      let metersPerDegreeLng : ℚ := 111320 * M.cos (latitude * M.pi / 180)
      let shadowCoordinates := building.coordinates.map (fun coord =>
        let latOffset := shadowLength * M.cos shadowDirection / metersPerDegreeLat
        let lngOffset := shadowLength * M.sin shadowDirection / metersPerDegreeLng
        Coordinate.mk (coord.latitude + latOffset) (coord.longitude + lngOffset))
      let polygon := building.coordinates ++ shadowCoordinates.reverse
      let opacity := min (8/10) (3/10 + sunPosition.altitudeDegrees / 90 * (5/10))
      some ⟨building.id, polygon, opacity⟩

/-- `calculateAllShadows`: the push-if-non-null loop is a `filterMap`. -/
def calculateAllShadows (M : JsMath) (buildings : List Building)
    (sunPosition : SunPosition) (centerLatitude : ℚ) : List ShadowPolygon :=
  if ¬ isSunAboveHorizon sunPosition then []
  else buildings.filterMap
    (fun building => calculateBuildingShadow M building sunPosition centerLatitude)

/-- Ray-casting `isPointInPolygon` (advanced-shade-calculator.ts version,
working on `{latitude, longitude}` vertices); `¬(· ↔ ·)` models the boolean
`!==`. -/
def isPointInPolygon (point : Coordinate) (polygon : List Coordinate) : Bool :=
  (cyclicPairs polygon).foldl (fun inside e =>
    let xi := e.1.longitude
    let yi := e.1.latitude
    let xj := e.2.longitude
    let yj := e.2.latitude
    if (¬ ((yi > point.latitude) ↔ (yj > point.latitude))) ∧
        point.longitude < (xj - xi) * (point.latitude - yi) / (yj - yi) + xi then
      !inside
    else inside) false

/-- `isPointInShade`: member of any shadow polygon. -/
def isPointInShade (point : Coordinate) (shadows : List ShadowPolygon) : Bool :=
  shadows.any (fun shadow => isPointInPolygon point shadow.coordinates)

/-- A concrete `Math` interpretation for witnesses: `tan = 1` (a 45° sun),
`cos = 1`, `sin = 0`, `pi = 0`. -/
def demoMath : JsMath := ⟨0, fun _ => 0, fun _ => 1, fun _ => 1⟩

/-- The spec-scenario building: a box at `(35.6812, 139.7671)`, height 30 m. -/
def demoBuilding : Building :=
  ⟨"b1",
    [⟨356812/10000, 1397671/10000⟩, ⟨356812/10000, 1397681/10000⟩,
     ⟨356822/10000, 1397681/10000⟩, ⟨356822/10000, 1397671/10000⟩], 30⟩

/-- A 45°-altitude sun position (altitude ≈ 0.785 rad, 45°). -/
def demoSun : SunPosition := ⟨785/1000, 0, 45, 180⟩

/-- A below-horizon sun position. -/
def demoSunBelow : SunPosition := ⟨-1/10, 0, -6, 180⟩

end AdvancedShade

namespace ShadeRoute

/- Embedding of `src/lib/shade-route-service.ts` (the grid A* pathfinder and
the route shade percentage; `src/lib/routing/pathfinder.ts` carries the same
functions verbatim). -/

open AdvancedShade (ShadowPolygon)

/-- `RouteOptions`. -/
structure RouteOptions where
  prioritizeShade : Bool
  maxDetour : ℚ
  walkingSpeed : ℚ
deriving DecidableEq, Repr

/-- `DEFAULT_OPTIONS`. -/
def DEFAULT_OPTIONS : RouteOptions := ⟨true, 3/10, 9/2⟩

/-- `isPointInsidePolygon` (the file's own copy of the ray-casting test);
`¬(· ↔ ·)` models the boolean `!==`. -/
def isPointInsidePolygon (point : Coordinate) (polygon : List Coordinate) : Bool :=
  (cyclicPairs polygon).foldl (fun inside e =>
    let xi := e.1.longitude
    let yi := e.1.latitude
    let xj := e.2.longitude
    let yj := e.2.latitude
    if (¬ ((yi > point.latitude) ↔ (yj > point.latitude))) ∧
        point.longitude < (xj - xi) * (point.latitude - yi) / (yj - yi) + xi then
      !inside
    else inside) false

/-- `generateDirectRoute`: 21 points linearly interpolated between `start`
and `end`. -/
def generateDirectRoute (start endPoint : Coordinate) : List Coordinate :=
  (List.range 21).map (fun i : ℕ =>
    let t : ℚ := (i : ℚ) / 20
    Coordinate.mk (start.latitude + (endPoint.latitude - start.latitude) * t)
      (start.longitude + (endPoint.longitude - start.longitude) * t))

/-- `Math.max(1, Math.ceil(segmentDistance / sampleInterval))`. -/
def numSamplesOf (segmentDistance sampleInterval : ℚ) : ℕ :=
  (max 1 ⌈segmentDistance / sampleInterval⌉).toNat

/-- The interpolated sample point at `t = j / numSamples`. -/
def samplePointAt (a b : Coordinate) (numSamples j : ℕ) : Coordinate :=
  let t : ℚ := (j : ℚ) / (numSamples : ℚ)
  Coordinate.mk (a.latitude + (b.latitude - a.latitude) * t)
    (a.longitude + (b.longitude - a.longitude) * t)

/-- `calculateRouteShadePercentage`, parametrised by the haversine
`calculateDistance`. Per edge it returns the pair
(#shaded samples, #samples) for `j = 0 .. numSamples`. -/
def calculateRouteShadePercentage (calculateDistance : ℚ → ℚ → ℚ → ℚ → ℚ)
    (route : List Coordinate) (shadows : List ShadowPolygon)
    (sampleInterval : ℚ) : ℚ :=
  if route.length < 2 ∨ shadows.length = 0 then 0
  else
    let counts := (route.zip route.tail).map (fun e =>
      let segmentDistance :=
        calculateDistance e.1.latitude e.1.longitude e.2.latitude e.2.longitude
      let numSamples := numSamplesOf segmentDistance sampleInterval
      (((List.range (numSamples + 1)).filter (fun j =>
          AdvancedShade.isPointInShade (samplePointAt e.1 e.2 numSamples j) shadows)).length,
        numSamples + 1))
    let shadedPoints := (counts.map Prod.fst).sum
    let totalPoints := (counts.map Prod.snd).sum
    if 0 < totalPoints then ((shadedPoints : ℚ) / (totalPoints : ℚ)) * 100 else 0

/-- A* search node (`{lat, lon, g, h, f, parent}`). -/
inductive SearchNode where
  | mk : ℚ → ℚ → ℚ → ℚ → ℚ → Option SearchNode → SearchNode

def SearchNode.lat : SearchNode → ℚ
  | .mk l _ _ _ _ _ => l

def SearchNode.lon : SearchNode → ℚ
  | .mk _ l _ _ _ _ => l

def SearchNode.g : SearchNode → ℚ
  | .mk _ _ g _ _ _ => g

def SearchNode.h : SearchNode → ℚ
  | .mk _ _ _ h _ _ => h

def SearchNode.f : SearchNode → ℚ
  | .mk _ _ _ _ f _ => f

def SearchNode.parent : SearchNode → Option SearchNode
  | .mk _ _ _ _ _ p => p

/-- Coordinates of the root of the parent chain. -/
def SearchNode.rootLatLon : SearchNode → ℚ × ℚ
  | .mk lat lon _ _ _ none => (lat, lon)
  | .mk _ _ _ _ _ (some p) => p.rootLatLon

/-- The `while (node) { path.unshift(...); node = node.parent }` path
reconstruction: root-first list of the parent chain's coordinates. -/
def SearchNode.pathTo : SearchNode → List Coordinate
  | .mk lat lon _ _ _ none => [⟨lat, lon⟩]
  | .mk lat lon _ _ _ (some p) => p.pathTo ++ [⟨lat, lon⟩]

/-- `gridSize = 0.0001` degrees. -/
def gridSize : ℚ := 1/10000

/-- `getKey`: the rounded grid cell, modelling the template-string key
`round(lat/gridSize),round(lon/gridSize)`. -/
def getKey (lat lon : ℚ) : ℤ × ℤ :=
  (jsRound (lat / gridSize), jsRound (lon / gridSize))

/-- The eight neighbor directions. -/
def directions : List (ℤ × ℤ) :=
  [(0, 1), (1, 0), (0, -1), (-1, 0), (1, 1), (1, -1), (-1, 1), (-1, -1)]

/-- `getNeighbors`: 8-connected cells whose center is inside no building. -/
def getNeighbors (buildings : List Building) (node : SearchNode) : List Coordinate :=
  directions.filterMap (fun d =>
    let newLat := node.lat + (d.1 : ℚ) * gridSize
    let newLon := node.lon + (d.2 : ℚ) * gridSize
    let isInsideBuilding := buildings.any (fun building =>
      isPointInsidePolygon ⟨newLat, newLon⟩ building.coordinates)
    if isInsideBuilding then none else some ⟨newLat, newLon⟩)

/-- `getShadeCost`: shaded cells cost half. -/
def getShadeCost (shadows : List ShadowPolygon) (point : Coordinate) : ℚ :=
  if AdvancedShade.isPointInShade point shadows then 1/2 else 1

/-- The stable `openSet.sort((a, b) => a.f - b.f)`. -/
def sortByF (openSet : List SearchNode) : List SearchNode :=
  List.insertionSort (fun a b => a.f ≤ b.f) openSet

/-- `openSet[index] = newNode` for the first node with the given key (the
node found by `find`, located again by `indexOf`). -/
def replaceFirstByKey : List SearchNode → ℤ × ℤ → SearchNode → List SearchNode
  | [], _, _ => []
  | n :: ns, key, nw =>
    if getKey n.lat n.lon = key then nw :: ns else n :: replaceFirstByKey ns key nw

/-- The body of the neighbor-expansion `for` loop of
`generateShadeOptimizedRoute`, for one neighbor. -/
def considerNeighbor (calculateDistance : ℚ → ℚ → ℚ → ℚ → ℚ)
    (endPoint : Coordinate) (shadows : List ShadowPolygon)
    (options : RouteOptions) (maxDistance : ℚ) (current : SearchNode)
    (closedSet : List (ℤ × ℤ)) (acc : List SearchNode)
    (neighbor : Coordinate) : List SearchNode :=
  let neighborKey := getKey neighbor.latitude neighbor.longitude
  if neighborKey ∈ closedSet then acc
  else
    let stepDistance :=
      calculateDistance current.lat current.lon neighbor.latitude neighbor.longitude
    let shadeCost := if options.prioritizeShade then getShadeCost shadows neighbor else 1
    let g := current.g + stepDistance * shadeCost
    let totalEstimated := g + calculateDistance neighbor.latitude neighbor.longitude
      endPoint.latitude endPoint.longitude
    if maxDistance < totalEstimated then acc
    else
      let h := calculateDistance neighbor.latitude neighbor.longitude
        endPoint.latitude endPoint.longitude
      let newNode := SearchNode.mk neighbor.latitude neighbor.longitude g h (g + h)
        (some current)
      match acc.find? (fun n => decide (getKey n.lat n.lon = neighborKey)) with
      | some existingNode =>
        if g < existingNode.g then replaceFirstByKey acc neighborKey newNode else acc
      | none => acc ++ [newNode]

/-- The neighbor-expansion `for` loop of `generateShadeOptimizedRoute`:
folds the neighbors of `current` into the open set. -/
def stepNeighbors (calculateDistance : ℚ → ℚ → ℚ → ℚ → ℚ)
    (endPoint : Coordinate) (shadows : List ShadowPolygon)
    (buildings : List Building) (options : RouteOptions) (maxDistance : ℚ)
    (current : SearchNode) (closedSet : List (ℤ × ℤ))
    (openSet : List SearchNode) : List SearchNode :=
  (getNeighbors buildings current).foldl
    (considerNeighbor calculateDistance endPoint shadows options maxDistance current closedSet)
    openSet

/-- The `while (openSet.length > 0 && iterations < maxIterations)` loop;
`fuel` is the remaining iteration budget. Exhausted fuel or an empty open
set falls back to `generateDirectRoute`. -/
def aStarLoop (calculateDistance : ℚ → ℚ → ℚ → ℚ → ℚ)
    (start endPoint : Coordinate) (shadows : List ShadowPolygon)
    (buildings : List Building) (options : RouteOptions) (maxDistance : ℚ) :
    ℕ → List SearchNode → List (ℤ × ℤ) → List Coordinate
  | 0, _, _ => generateDirectRoute start endPoint
  | fuel + 1, openSet, closedSet =>
    match sortByF openSet with
    | [] => generateDirectRoute start endPoint
    | current :: rest =>
      if calculateDistance current.lat current.lon endPoint.latitude endPoint.longitude < 20 then
        current.pathTo ++ [endPoint]
      else
        let currentKey := getKey current.lat current.lon
        if currentKey ∈ closedSet then
          aStarLoop calculateDistance start endPoint shadows buildings options
            maxDistance fuel rest closedSet
        else
          aStarLoop calculateDistance start endPoint shadows buildings options
            maxDistance fuel
            (stepNeighbors calculateDistance endPoint shadows buildings options
              maxDistance current (currentKey :: closedSet) rest)
            (currentKey :: closedSet)

/-- `maxIterations = 5000`. -/
def maxIterations : ℕ := 5000

/-- `generateShadeOptimizedRoute` (identical in shade-route-service.ts and
routing/pathfinder.ts), parametrised by the haversine `calculateDistance`. -/
def generateShadeOptimizedRoute (calculateDistance : ℚ → ℚ → ℚ → ℚ → ℚ)
    (start endPoint : Coordinate) (shadows : List ShadowPolygon)
    (buildings : List Building) (options : RouteOptions) : List Coordinate :=
  let directDistance :=
    calculateDistance start.latitude start.longitude endPoint.latitude endPoint.longitude
  let maxDistance := directDistance * (1 + options.maxDetour)
  let startNode := SearchNode.mk start.latitude start.longitude 0 directDistance
    directDistance none
  aStarLoop calculateDistance start endPoint shadows buildings options maxDistance
    maxIterations [startNode] []

end ShadeRoute

namespace RouteAnalyzer

/- Embedding of the route-shade analyzer (`analyzeRouteShade` and its local
point-in-shade helpers; the module importing `Route`/`RoutePoint` from
route-service.ts and the shadow machinery from advanced-shade-calculator.ts). -/

open AdvancedShade (ShadowPolygon SunPosition)

/-- `RoutePoint` of route-service.ts. -/
structure RoutePoint where
  latitude : ℚ
  longitude : ℚ
deriving DecidableEq, Repr

/-- `Route` of route-service.ts (`steps` omitted: unused by the analyzer). -/
structure Route where
  distance : ℚ
  duration : ℚ
  geometry : List RoutePoint
deriving DecidableEq, Repr

/-- `RouteAnalysis` record. -/
structure RouteAnalysis where
  route : Route
  shadePercentage : ℚ
  shadedDistance : ℚ
  exposedDistance : ℚ
  uvExposure : ℚ
  isRecommended : Bool
deriving DecidableEq, Repr

/-- The analyzer's own ray-casting `isPointInPolygon` on `{x, y}` pairs;
`¬(· ↔ ·)` models the boolean `!==`. -/
def isPointInPolygonXY (point : RoutePoint) (polygon : List (ℚ × ℚ)) : Bool :=
  (cyclicPairs polygon).foldl (fun inside e =>
    let xi := e.1.1
    let yi := e.1.2
    let xj := e.2.1
    let yj := e.2.2
    if (¬ ((yi > point.latitude) ↔ (yj > point.latitude))) ∧
        point.longitude < (xj - xi) * (point.latitude - yi) / (yj - yi) + xi then
      !inside
    else inside) false

/-- The analyzer's `isPointInShade`: converts each shadow's coordinates to
`{x: longitude, y: latitude}` and tests membership. -/
def isPointInShade (point : RoutePoint) (shadows : List ShadowPolygon) : Bool :=
  shadows.any (fun shadow =>
    isPointInPolygonXY point (shadow.coordinates.map (fun c => (c.longitude, c.latitude))))

/-- Per-edge data of the analyzer loop: `(segmentDistance, midpoint in shade)`. -/
def segInfos (calculateDistance : RoutePoint → RoutePoint → ℚ)
    (shadows : List ShadowPolygon) (route : Route) : List (ℚ × Bool) :=
  (route.geometry.zip route.geometry.tail).map (fun e =>
    let segmentDistance := calculateDistance e.1 e.2
    let midPoint : RoutePoint :=
      ⟨(e.1.latitude + e.2.latitude) / 2, (e.1.longitude + e.2.longitude) / 2⟩
    (segmentDistance, isPointInShade midPoint shadows))

/-- The accumulated total distance of the loop. -/
def totalDistanceOf (calculateDistance : RoutePoint → RoutePoint → ℚ)
    (shadows : List ShadowPolygon) (route : Route) : ℚ :=
  ((segInfos calculateDistance shadows route).map Prod.fst).sum

/-- The accumulated shaded distance of the loop. -/
def shadedDistanceOf (calculateDistance : RoutePoint → RoutePoint → ℚ)
    (shadows : List ShadowPolygon) (route : Route) : ℚ :=
  (((segInfos calculateDistance shadows route).filter (fun s => s.2)).map Prod.fst).sum

/-- `analyzeRouteShade`, parametrised by the `Math` functions, the haversine
`calculateDistance` of route-service.ts, and the `SunPosition` that
`getSunPosition` (astronomy, outside the rational fragment) returned for the
route's first point and the given time. -/
def analyzeRouteShade (M : JsMath) (calculateDistance : RoutePoint → RoutePoint → ℚ)
    (sunPosition : SunPosition) (route : Route) (buildings : List Building) :
    RouteAnalysis :=
  if ¬ AdvancedShade.isSunAboveHorizon sunPosition then
    { route := route
      shadePercentage := 100
      shadedDistance := route.distance
      exposedDistance := 0
      uvExposure := 0
      isRecommended := true }
  else
    let shadows := AdvancedShade.calculateAllShadows M buildings sunPosition
      ((route.geometry.headD ⟨0, 0⟩).latitude)
    let totalDistance := totalDistanceOf calculateDistance shadows route
    let shadedDistance := shadedDistanceOf calculateDistance shadows route
    let shadePercentage :=
      if 0 < totalDistance then shadedDistance / totalDistance * 100 else 0
    let exposedDistance := totalDistance - shadedDistance
    let uvExposure := (jsRound (exposedDistance / totalDistance * 100) : ℚ)
    { route := route
      shadePercentage := (jsRound shadePercentage : ℚ)
      shadedDistance := (jsRound shadedDistance : ℚ)
      exposedDistance := (jsRound exposedDistance : ℚ)
      uvExposure := uvExposure
      isRecommended := decide (shadePercentage > 50) }

/-- The shadow list `analyzeRouteShade` computes (named for the theorems). -/
def shadowsOf (M : JsMath) (sunPosition : SunPosition) (route : Route)
    (buildings : List Building) : List ShadowPolygon :=
  AdvancedShade.calculateAllShadows M buildings sunPosition
    ((route.geometry.headD ⟨0, 0⟩).latitude)

/-- The exact (pre-rounding) shade percentage of the analyzer loop. -/
def rawShadePercentageOf (M : JsMath)
    (calculateDistance : RoutePoint → RoutePoint → ℚ)
    (sunPosition : SunPosition) (route : Route)
    (buildings : List Building) : ℚ :=
  shadedDistanceOf calculateDistance (shadowsOf M sunPosition route buildings) route /
    totalDistanceOf calculateDistance (shadowsOf M sunPosition route buildings) route * 100

/-- Concrete analyzer inputs: a 500 m-tall unit-square building whose shadow
(under `demoMath`, i.e. `tan = 1`, `cos = 1`, `sin = 0`) is shifted north by
`ε = 500/111320 = 25/5566` degrees of latitude. -/
def cBuilding : Building := ⟨"cb", [⟨0, 0⟩, ⟨0, 1⟩, ⟨1, 1⟩, ⟨1, 0⟩], 500⟩

/-- An above-horizon sun position at 45°. -/
def cSun : AdvancedShade.SunPosition := ⟨1, 0, 45, 0⟩

/-- The shadow polygon `calculateAllShadows` produces for `cBuilding` under
`demoMath` and `cSun` (footprint followed by the reversed offset vertices). -/
def cPolygon : List Coordinate :=
  [⟨0, 0⟩, ⟨0, 1⟩, ⟨1, 1⟩, ⟨1, 0⟩,
   ⟨5591/5566, 0⟩, ⟨5591/5566, 1⟩, ⟨25/5566, 1⟩, ⟨25/5566, 0⟩]

/-- Three route points on the latitude line `1 + ε/2` (inside the shifted
shadow): the first edge's midpoint `(1 + ε/2, 1/2)` is in shade, the second
edge's midpoint `(1 + ε/2, 57/20)` is not. -/
def cP0 : RoutePoint := ⟨11157/11132, 3/10⟩

def cP1 : RoutePoint := ⟨11157/11132, 7/10⟩

def cP2 : RoutePoint := ⟨11157/11132, 5⟩

def cRoute : Route := ⟨300, 60, [cP0, cP1, cP2]⟩

/-- A distance interpretation giving the two edges lengths 1005 and 995
(shaded fraction 50.25%). -/
def cDistA : RoutePoint → RoutePoint → ℚ :=
  fun _ b => if b.longitude = 7/10 then 1005 else 995

/-- A distance interpretation giving the two edges lengths 101 and 99
(shaded fraction exactly 50.5%). -/
def cDistB : RoutePoint → RoutePoint → ℚ :=
  fun _ b => if b.longitude = 7/10 then 101 else 99

end RouteAnalyzer

/-! ## Theorems -/

theorem jsRound_mono {a b : ℚ} (h : a ≤ b) : jsRound a ≤ jsRound b :=
  Int.floor_le_floor (by linarith)

theorem jsRound_eq (q : ℚ) (n : ℤ) (h1 : (n : ℚ) ≤ q + 1/2) (h2 : q + 1/2 < n + 1) :
    jsRound q = n :=
  Int.floor_eq_iff.2 ⟨h1, h2⟩

namespace CoolWalks

theorem baseAlphaOf_nonneg (uv : ℚ) : 0 ≤ baseAlphaOf uv := by
  unfold baseAlphaOf; split_ifs <;> norm_num

theorem baseAlphaOf_mono {a b : ℚ} (h : a ≤ b) : baseAlphaOf a ≤ baseAlphaOf b := by
  unfold baseAlphaOf
  split_ifs <;> linarith

theorem foldl_add_eq_sum (f : RouteSegment → ℚ) (l : List RouteSegment) (c : ℚ) :
    l.foldl (fun sum s => sum + f s) c = c + (l.map f).sum := by
  induction l generalizing c with
  | nil => simp
  | cons x xs ih => simp [ih, add_assoc]

theorem scanMin_spec (xs : List ℚ) : ∀ (i : ℕ) (bv : ℚ) (b : ℕ), b < i →
    (scanMin xs i (bv, b) = (bv, b) ∨
      ∃ k : ℕ, xs[k]? = some (scanMin xs i (bv, b)).1 ∧ (scanMin xs i (bv, b)).2 = i + k) ∧
    (scanMin xs i (bv, b)).1 ≤ bv ∧
    (∀ (k : ℕ) (y : ℚ), xs[k]? = some y → (scanMin xs i (bv, b)).1 ≤ y) ∧
    ((scanMin xs i (bv, b)).2 ≠ b → (scanMin xs i (bv, b)).1 < bv) ∧
    (∀ (k : ℕ) (y : ℚ), xs[k]? = some y → i + k < (scanMin xs i (bv, b)).2 →
      (scanMin xs i (bv, b)).1 < y) := by
  induction xs with
  | nil =>
    intro i bv b _
    refine ⟨Or.inl rfl, le_refl _, ?_, ?_, ?_⟩
    · intro k y hk; simp at hk
    · intro h; exact absurd rfl h
    · intro k y hk; simp at hk
  | cons x xs ih =>
    intro i bv b hbi
    by_cases hx : x < bv
    · have hrec := ih (i + 1) x i (Nat.lt_succ_self i)
      obtain ⟨hmem, hle, hall, hstrict, hbefore⟩ := hrec
      have hunf : scanMin (x :: xs) i (bv, b) = scanMin xs (i + 1) (x, i) := by
        simp [scanMin, hx]
      rw [hunf]
      refine ⟨?_, le_trans hle (le_of_lt hx), ?_, ?_, ?_⟩
      · rcases hmem with heq | ⟨k, hk, hk2⟩
        · exact Or.inr ⟨0, by simp [heq], by simp [heq]⟩
        · exact Or.inr ⟨k + 1, by simpa using hk, by omega⟩
      · intro k y hk
        match k, hk with
        | 0, hk => simp_all
        | k + 1, hk => exact hall k y (by simpa using hk)
      · intro _
        rcases hmem with heq | _
        · rw [heq]; exact hx
        · by_cases h2 : (scanMin xs (i + 1) (x, i)).2 = i
          · calc (scanMin xs (i + 1) (x, i)).1 ≤ x := hle
              _ < bv := hx
          · exact lt_trans (hstrict h2) hx
      · intro k y hk hlt
        match k, hk with
        | 0, hk =>
          simp only [List.getElem?_cons_zero, Option.some_inj] at hk
          subst hk
          have h2 : (scanMin xs (i + 1) (x, i)).2 ≠ i := by omega
          exact hstrict h2
        | k + 1, hk =>
          exact hbefore k y (by simpa using hk) (by omega)
    · have hxb : bv ≤ x := le_of_not_lt hx
      have hrec := ih (i + 1) bv b (by omega)
      obtain ⟨hmem, hle, hall, hstrict, hbefore⟩ := hrec
      have hunf : scanMin (x :: xs) i (bv, b) = scanMin xs (i + 1) (bv, b) := by
        simp [scanMin, hx]
      rw [hunf]
      refine ⟨?_, hle, ?_, hstrict, ?_⟩
      · rcases hmem with heq | ⟨k, hk, hk2⟩
        · exact Or.inl heq
        · exact Or.inr ⟨k + 1, by simpa using hk, by omega⟩
      · intro k y hk
        match k, hk with
        | 0, hk =>
          simp only [List.getElem?_cons_zero, Option.some_inj] at hk
          subst hk
          exact le_trans hle hxb
        | k + 1, hk => exact hall k y (by simpa using hk)
      · intro k y hk hlt
        match k, hk with
        | 0, hk =>
          simp only [List.getElem?_cons_zero, Option.some_inj] at hk
          subst hk
          have h2 : (scanMin xs (i + 1) (bv, b)).2 ≠ b := by omega
          exact lt_of_lt_of_le (hstrict h2) hxb
        | k + 1, hk =>
          exact hbefore k y (by simpa using hk) (by omega)

theorem optimalIndexOf_spec (lengths : List ℚ) (hne : lengths ≠ []) :
    optimalIndexOf lengths < lengths.length ∧
    ∃ v : ℚ, lengths[optimalIndexOf lengths]? = some v ∧
      (∀ (i : ℕ) (y : ℚ), lengths[i]? = some y → v ≤ y) ∧
      (∀ (i : ℕ) (y : ℚ), lengths[i]? = some y → i < optimalIndexOf lengths → v < y) := by
  match lengths with
  | [] => exact absurd rfl hne
  | x :: xs =>
    obtain ⟨hmem, hle, hall, hstrict, hbefore⟩ := scanMin_spec xs 1 x 0 Nat.zero_lt_one
    have hopt : optimalIndexOf (x :: xs) = (scanMin xs 1 (x, 0)).2 := rfl
    rcases hmem with heq | ⟨k, hk, hk2⟩
    · rw [hopt, heq]
      refine ⟨by simp, x, by simp, ?_, ?_⟩
      · intro i y hy
        match i, hy with
        | 0, hy =>
          simp only [List.getElem?_cons_zero, Option.some_inj] at hy
          exact le_of_eq hy
        | i + 1, hy =>
          have := hall i y (by simpa using hy)
          rwa [heq] at this
      · intro i y _ hlt
        exact absurd hlt (by omega)
    · have hkx : k < xs.length := by
        have := List.getElem?_eq_some.1 hk
        exact this.1
      rw [hopt, hk2]
      refine ⟨by simp; omega, (scanMin xs 1 (x, 0)).1, ?_, ?_, ?_⟩
      · rw [Nat.add_comm 1 k, List.getElem?_cons_succ]
        exact hk
      · intro i y hy
        match i, hy with
        | 0, hy =>
          simp only [List.getElem?_cons_zero, Option.some_inj] at hy
          exact hy ▸ hle
        | i + 1, hy => exact hall i y (by simpa using hy)
      · intro i y hy hlt
        match i, hy with
        | 0, hy =>
          simp only [List.getElem?_cons_zero, Option.some_inj] at hy
          subst hy
          exact hstrict (by omega)
        | i + 1, hy =>
          exact hbefore i y (by simpa using hy) (by omega)

theorem lexLt_asymm {a b : ℚ × ℕ} (h : lexLt a b) : ¬ lexLt b a := by
  rcases h with h | ⟨h, h2⟩ <;> rintro (h' | ⟨h', h2'⟩) <;> linarith

theorem lexLt_of_lexLe_ne {a b : ℚ × ℕ} (h : lexLe a b) (hne : a.2 ≠ b.2) : lexLt a b := by
  rcases h with h | ⟨h, h2⟩
  · exact Or.inl h
  · exact Or.inr ⟨h, lt_of_le_of_ne h2 hne⟩

theorem pairsOf_snd (lengths : List ℚ) :
    (pairsOf lengths).map Prod.snd = List.range lengths.length := by
  simp only [pairsOf, List.map_map]
  have : (Prod.snd ∘ fun p : ℕ × ℚ => (p.2, p.1)) = Prod.fst := by
    funext p; rfl
  rw [this, List.enum_map_fst]

theorem mem_pairsOf {lengths : List ℚ} {v : ℚ} {i : ℕ} :
    (v, i) ∈ pairsOf lengths ↔ lengths[i]? = some v := by
  simp only [pairsOf, List.mem_map, Prod.mk.injEq]
  constructor
  · rintro ⟨⟨a, b⟩, hp, hb, ha⟩
    subst hb; subst ha
    exact List.mk_mem_enum_iff_getElem?.1 hp
  · intro h
    exact ⟨(i, v), List.mk_mem_enum_iff_getElem?.2 h, rfl, rfl⟩

theorem sortedPairs_perm (lengths : List ℚ) :
    List.Perm (sortedPairs lengths) (pairsOf lengths) :=
  List.perm_insertionSort lexLe _

theorem sortedPairs_sorted (lengths : List ℚ) :
    List.Sorted lexLe (sortedPairs lengths) :=
  List.sorted_insertionSort lexLe _

theorem sortedIndices_perm_range (lengths : List ℚ) :
    List.Perm (sortedIndices lengths) (List.range lengths.length) := by
  have h := (sortedPairs_perm lengths).map Prod.snd
  rw [pairsOf_snd] at h
  exact h

theorem sortedIndices_nodup (lengths : List ℚ) : (sortedIndices lengths).Nodup :=
  (sortedIndices_perm_range lengths).nodup_iff.2 (List.nodup_range _)

theorem sortedPairs_length (lengths : List ℚ) :
    (sortedPairs lengths).length = lengths.length := by
  rw [(sortedPairs_perm lengths).length_eq]
  simp [pairsOf]

theorem mem_pairsOf_elem {lengths : List ℚ} {p : ℚ × ℕ} (h : p ∈ pairsOf lengths) :
    lengths[p.2]? = some p.1 := by
  obtain ⟨a, b⟩ := p
  exact mem_pairsOf.1 h

theorem sortedPairs_at_indexOf {lengths : List ℚ} {i : ℕ} {v : ℚ}
    (hi : lengths[i]? = some v) :
    (sortedIndices lengths).indexOf i < (sortedPairs lengths).length ∧
    (sortedPairs lengths)[(sortedIndices lengths).indexOf i]? = some (v, i) := by
  have hmemP : (v, i) ∈ sortedPairs lengths :=
    (sortedPairs_perm lengths).mem_iff.2 (mem_pairsOf.2 hi)
  have hmemI : i ∈ sortedIndices lengths := List.mem_map.2 ⟨(v, i), hmemP, rfl⟩
  have hlen : (sortedIndices lengths).length = (sortedPairs lengths).length :=
    List.length_map _ _
  have hk : (sortedIndices lengths).indexOf i < (sortedIndices lengths).length :=
    List.indexOf_lt_length.2 hmemI
  refine ⟨hlen ▸ hk, ?_⟩
  have hidx : (sortedIndices lengths)[(sortedIndices lengths).indexOf i]? = some i :=
    List.getElem?_indexOf hmemI
  set k := (sortedIndices lengths).indexOf i with hkdef
  rw [sortedIndices, List.getElem?_map] at hidx
  cases hp : (sortedPairs lengths)[k]? with
  | none =>
    rw [hp] at hidx
    simp at hidx
  | some p =>
    rw [hp] at hidx
    simp only [Option.map_some'] at hidx
    have hsnd : p.2 = i := Option.some.inj hidx
    have hpmem : p ∈ sortedPairs lengths := List.getElem?_mem hp
    have hplen : lengths[p.2]? = some p.1 :=
      mem_pairsOf_elem ((sortedPairs_perm lengths).mem_iff.1 hpmem)
    rw [hsnd] at hplen
    rw [hplen] at hi
    have hfst : p.1 = v := Option.some.inj hi
    rw [show p = (v, i) from Prod.ext hfst hsnd]

theorem lexLt_of_indexOf_lt {lengths : List ℚ} {i j : ℕ} {vi vj : ℚ}
    (hi : lengths[i]? = some vi) (hj : lengths[j]? = some vj)
    (hlt : (sortedIndices lengths).indexOf i < (sortedIndices lengths).indexOf j) :
    lexLt (vi, i) (vj, j) := by
  obtain ⟨hki, hpi⟩ := sortedPairs_at_indexOf hi
  obtain ⟨hkj, hpj⟩ := sortedPairs_at_indexOf hj
  have hij : i ≠ j := by
    intro he
    subst he
    exact lt_irrefl _ hlt
  have hrel := (sortedPairs_sorted lengths).rel_get_of_lt
    (a := ⟨(sortedIndices lengths).indexOf i, hki⟩)
    (b := ⟨(sortedIndices lengths).indexOf j, hkj⟩) (Fin.mk_lt_mk.2 hlt)
  rw [List.get_eq_getElem, List.get_eq_getElem] at hrel
  rw [List.getElem?_eq_getElem hki] at hpi
  rw [List.getElem?_eq_getElem hkj] at hpj
  rw [Option.some_inj.1 hpi, Option.some_inj.1 hpj] at hrel
  exact lexLt_of_lexLe_ne hrel hij

theorem indexOf_lt_iff_lexLt {lengths : List ℚ} {i j : ℕ} {vi vj : ℚ}
    (hi : lengths[i]? = some vi) (hj : lengths[j]? = some vj) :
    (sortedIndices lengths).indexOf i < (sortedIndices lengths).indexOf j ↔
      lexLt (vi, i) (vj, j) := by
  constructor
  · exact lexLt_of_indexOf_lt hi hj
  · intro h
    have hij : i ≠ j := by
      intro he
      subst he
      rw [hi] at hj
      obtain rfl := Option.some.inj hj
      exact absurd h (lexLt_asymm h)
    rcases Nat.lt_trichotomy ((sortedIndices lengths).indexOf i)
        ((sortedIndices lengths).indexOf j) with hlt | heq | hgt
    · exact hlt
    · obtain ⟨hki, hpi⟩ := sortedPairs_at_indexOf hi
      obtain ⟨_, hpj⟩ := sortedPairs_at_indexOf hj
      rw [heq, hpj] at hpi
      have := congrArg Prod.snd (Option.some.inj hpi)
      exact absurd this hij.symm
    · exact absurd (lexLt_of_indexOf_lt hj hi hgt) (lexLt_asymm h)

theorem rankingsOf_length (lengths : List ℚ) :
    (rankingsOf lengths).length = lengths.length := by
  simp [rankingsOf]

theorem rankingsOf_getElem {lengths : List ℚ} {i : ℕ} (h : i < lengths.length) :
    (rankingsOf lengths)[i]? = some ((sortedIndices lengths).indexOf i + 1) := by
  simp [rankingsOf, List.getElem?_range h]

/-- **C1.** For every non-empty route list and every α, `findOptimalShadeRoute`
returns: the experienced lengths `Σ (sun·α + shade)` of all routes; an optimal
index that is in bounds, attains the minimum experienced length, and precedes
every strictly earlier occurrence of that minimum (earliest-index tie-break);
and a ranking list of the same length whose entries lie in `1..N` and order
exactly as the stable ascending sort by experienced length (ties broken by
input order). -/
theorem findOptimalShadeRoute_correct (routes : List Route) (alpha : ℚ)
    (r : FindOptimalResult) (h : findOptimalShadeRoute routes alpha = some r) :
    r.experiencedLengths =
      routes.map (fun route => calculateRouteExperiencedLength route alpha) ∧
    r.optimalIndex < routes.length ∧
    (∃ v : ℚ, r.experiencedLengths[r.optimalIndex]? = some v ∧
      (∀ (i : ℕ) (y : ℚ), r.experiencedLengths[i]? = some y → v ≤ y) ∧
      (∀ (i : ℕ) (y : ℚ), r.experiencedLengths[i]? = some y → i < r.optimalIndex → v < y)) ∧
    r.rankings.length = routes.length ∧
    (∀ (i j : ℕ) (vi vj : ℚ) (ri rj : ℕ),
      r.experiencedLengths[i]? = some vi → r.experiencedLengths[j]? = some vj →
      r.rankings[i]? = some ri → r.rankings[j]? = some rj →
      (ri < rj ↔ (vi < vj ∨ (vi = vj ∧ i < j)))) ∧
    (∀ (i : ℕ) (ri : ℕ), r.rankings[i]? = some ri → 1 ≤ ri ∧ ri ≤ routes.length) := by
  match routes, h with
  | r0 :: rest, h =>
    simp only [findOptimalShadeRoute, Option.some_inj] at h
    subst h
    dsimp only
    have hne : (r0 :: rest).map (fun route => calculateRouteExperiencedLength route alpha)
        ≠ [] := by simp
    set lengths := (r0 :: rest).map (fun route => calculateRouteExperiencedLength route alpha)
      with hlendef
    have hlenlen : lengths.length = (r0 :: rest).length := by
      rw [hlendef]; exact List.length_map _ _
    obtain ⟨hopt, v, hv, hmin, hbef⟩ := optimalIndexOf_spec lengths hne
    refine ⟨rfl, by omega, ⟨v, hv, hmin, hbef⟩, ?_, ?_, ?_⟩
    · rw [rankingsOf_length, hlenlen]
    · intro i j vi vj ri rj hvi hvj hri hrj
      have hi : i < lengths.length := (List.getElem?_eq_some.1 hvi).1
      have hj : j < lengths.length := (List.getElem?_eq_some.1 hvj).1
      rw [rankingsOf_getElem hi] at hri
      rw [rankingsOf_getElem hj] at hrj
      obtain rfl := Option.some.inj hri
      obtain rfl := Option.some.inj hrj
      have hiff := indexOf_lt_iff_lexLt hvi hvj
      constructor
      · intro hlt
        exact hiff.1 (by omega)
      · intro hlex
        have := hiff.2 hlex
        omega
    · intro i ri hri
      have hi : i < (rankingsOf lengths).length := (List.getElem?_eq_some.1 hri).1
      rw [rankingsOf_length] at hi
      rw [rankingsOf_getElem hi] at hri
      obtain rfl := Option.some.inj hri
      have hmem : i ∈ sortedIndices lengths :=
        (sortedIndices_perm_range lengths).mem_iff.2 (List.mem_range.2 hi)
      have hlt : (sortedIndices lengths).indexOf i < (sortedIndices lengths).length :=
        List.indexOf_lt_length.2 hmem
      have hsl : (sortedIndices lengths).length = lengths.length := by
        rw [sortedIndices, List.length_map, sortedPairs_length]
      omega

/-- Witness for C1 at the spec scenario: routes `(150,50), (50,200), (100,100)`
at `α = 2` give experienced lengths `350, 300, 300`, optimal index 1, rankings
`3, 1, 2`; the in-bounds fact is obtained from the theorem itself. -/
theorem findOptimalShadeRoute_correct_witness :
    (findOptimalShadeRoute demoRoutes 2).map FindOptimalResult.experiencedLengths
        = some [350, 300, 300] ∧
    (findOptimalShadeRoute demoRoutes 2).map FindOptimalResult.optimalIndex = some 1 ∧
    (findOptimalShadeRoute demoRoutes 2).map FindOptimalResult.rankings = some [3, 1, 2] ∧
    (findOptimalShadeRoute demoRoutes 2).map
      (fun r => decide (r.optimalIndex < demoRoutes.length)) = some true := by
  have heval : findOptimalShadeRoute demoRoutes 2 =
      some ⟨1, demoRoutes.getD 1 ⟨"r0", "A", [⟨"s0", 150, 50, 200, 1/4⟩],
        200, 150, 50, 1/4, 2⟩, [350, 300, 300], [3, 1, 2]⟩ := by
    norm_num [findOptimalShadeRoute, demoRoutes, calculateRouteExperiencedLength,
      calculateExperiencedLength, optimalIndexOf, scanMin, rankingsOf, sortedIndices,
      sortedPairs, pairsOf, lexLe, List.insertionSort, List.orderedInsert,
      List.enum, List.enumFrom, List.indexOf, List.findIdx, List.findIdx.go,
      List.range_succ]
    decide
  refine ⟨by rw [heval]; rfl, by rw [heval]; rfl, by rw [heval]; rfl, ?_⟩
  cases hr : findOptimalShadeRoute demoRoutes 2 with
  | none => rw [heval] at hr; exact absurd hr (by simp)
  | some r =>
    have h := findOptimalShadeRoute_correct demoRoutes 2 r hr
    simp [h.2.1]

/-- **C10.** `findOptimalShadeRoute` errors (returns the error value) exactly
on the empty route list; on a non-empty list it returns a result whose
`optimalIndex` is a valid index. -/
theorem findOptimalShadeRoute_error_iff (routes : List Route) (alpha : ℚ) :
    (findOptimalShadeRoute routes alpha = none ↔ routes = []) ∧
    (∀ r : FindOptimalResult, findOptimalShadeRoute routes alpha = some r →
      r.optimalIndex < routes.length) := by
  constructor
  · cases routes with
    | nil => simp [findOptimalShadeRoute]
    | cons r0 rest => simp [findOptimalShadeRoute]
  · intro r h
    match routes, h with
    | r0 :: rest, h =>
      simp only [findOptimalShadeRoute, Option.some_inj] at h
      subst h
      have hne : (r0 :: rest).map (fun route => calculateRouteExperiencedLength route alpha)
          ≠ [] := by simp
      have := (optimalIndexOf_spec _ hne).1
      simpa using this

/-- Witness for C10: the empty route list yields the error value, and the
two-route list from the unit tests yields a valid index. -/
theorem findOptimalShadeRoute_error_iff_witness :
    findOptimalShadeRoute ([] : List Route) 1 = none ∧
    (findOptimalShadeRoute demoRoutes 1).map
      (fun r => decide (r.optimalIndex < demoRoutes.length)) = some true := by
  constructor
  · exact (findOptimalShadeRoute_error_iff [] 1).1.mpr rfl
  · cases hr : findOptimalShadeRoute demoRoutes 1 with
    | none => simp [findOptimalShadeRoute, demoRoutes] at hr
    | some r =>
      have h := (findOptimalShadeRoute_error_iff demoRoutes 1).2 r hr
      simp [h]

/-- **C5 counterexample.** `getRecommendedAlpha` is *not* monotone
non-decreasing in the numeric `skinTypeSensitivity` argument: raising the
sensitivity tier from 1 (most sensitive) to 2 lowers α from 2.1 to 2.0 at
`uvIndex = 3`. -/
theorem getRecommendedAlpha_sensitivity_counterexample :
    getRecommendedAlpha 3 1 = 21/10 ∧ getRecommendedAlpha 3 2 = 2 ∧
    ¬ getRecommendedAlpha 3 1 ≤ getRecommendedAlpha 3 2 := by
  have h1 : getRecommendedAlpha 3 1 = 21/10 := by
    simp only [getRecommendedAlpha]
    norm_num
    rw [jsRound_eq (104/5) 21 (by norm_num) (by norm_num)]
    norm_num
  have h2 : getRecommendedAlpha 3 2 = 2 := by
    simp only [getRecommendedAlpha]
    norm_num
    rw [jsRound_eq (39/2) 20 (by norm_num) (by norm_num)]
    norm_num
  exact ⟨h1, h2, by rw [h1, h2]; norm_num⟩

/-- **C5 (amended).** `getRecommendedAlpha` equals the UV-band base value
(≤2 → 1.0, ≤5 → 1.3, ≤7 → 1.6, ≤10 → 2.0, else 2.5) multiplied by
`1 + (7 − skinSensitivity) × 0.1` and rounded to one decimal; for sensitivity
in 1..6 it is monotone non-decreasing in `uvIndex` and monotone
*non-increasing* in the numeric `skinSensitivity` (larger α for more
sensitive skin, which is the smaller tier number). -/
theorem getRecommendedAlpha_spec :
    (∀ uv s : ℚ, getRecommendedAlpha uv s =
        (jsRound (baseAlphaOf uv * (1 + (7 - s) * (1/10)) * 10) : ℚ) / 10) ∧
    (∀ uv1 uv2 s : ℚ, 1 ≤ s → s ≤ 6 → uv1 ≤ uv2 →
      getRecommendedAlpha uv1 s ≤ getRecommendedAlpha uv2 s) ∧
    (∀ uv s1 s2 : ℚ, 1 ≤ s1 → s1 ≤ s2 → s2 ≤ 6 →
      getRecommendedAlpha uv s2 ≤ getRecommendedAlpha uv s1) := by
  refine ⟨fun uv s => rfl, ?_, ?_⟩
  · intro uv1 uv2 s _ hs6 huv
    have hbase := baseAlphaOf_mono huv
    have hc : (0:ℚ) ≤ 1 + (7 - s) * (1/10) := by linarith
    have hmul : baseAlphaOf uv1 * (1 + (7 - s) * (1/10)) * 10 ≤
        baseAlphaOf uv2 * (1 + (7 - s) * (1/10)) * 10 := by nlinarith
    show (jsRound (baseAlphaOf uv1 * (1 + (7 - s) * (1/10)) * 10) : ℚ) / 10 ≤
        (jsRound (baseAlphaOf uv2 * (1 + (7 - s) * (1/10)) * 10) : ℚ) / 10
    have := jsRound_mono hmul
    have hcast : (jsRound (baseAlphaOf uv1 * (1 + (7 - s) * (1/10)) * 10) : ℚ) ≤
        (jsRound (baseAlphaOf uv2 * (1 + (7 - s) * (1/10)) * 10) : ℚ) := by
      exact_mod_cast this
    linarith
  · intro uv s1 s2 hs1 hs12 hs26
    have hb := baseAlphaOf_nonneg uv
    have hmul : baseAlphaOf uv * (1 + (7 - s2) * (1/10)) * 10 ≤
        baseAlphaOf uv * (1 + (7 - s1) * (1/10)) * 10 := by nlinarith
    show (jsRound (baseAlphaOf uv * (1 + (7 - s2) * (1/10)) * 10) : ℚ) / 10 ≤
        (jsRound (baseAlphaOf uv * (1 + (7 - s1) * (1/10)) * 10) : ℚ) / 10
    have := jsRound_mono hmul
    have hcast : (jsRound (baseAlphaOf uv * (1 + (7 - s2) * (1/10)) * 10) : ℚ) ≤
        (jsRound (baseAlphaOf uv * (1 + (7 - s1) * (1/10)) * 10) : ℚ) := by
      exact_mod_cast this
    linarith

/-- Witness for C5: α is non-decreasing from UV 3 to UV 8 and non-increasing
from sensitivity 1 to 6, via the theorem at concrete inputs. -/
theorem getRecommendedAlpha_spec_witness :
    getRecommendedAlpha 3 3 ≤ getRecommendedAlpha 8 3 ∧
    getRecommendedAlpha 5 6 ≤ getRecommendedAlpha 5 1 :=
  ⟨getRecommendedAlpha_spec.2.1 3 8 3 (by norm_num) (by norm_num) (by norm_num),
   getRecommendedAlpha_spec.2.2 5 1 6 (by norm_num) (by norm_num) (by norm_num)⟩

/-- **C9.** The aggregates of `aggregateRouteInfo` are the sums of the
corresponding segment fields, and `shadeRatio` is
`totalShadeDistance / totalDistance` for positive total and 0 for zero
total. -/
theorem aggregateRouteInfo_invariant (segments : List RouteSegment) :
    (aggregateRouteInfo segments).totalDistance
        = (segments.map RouteSegment.totalDistance).sum ∧
    (aggregateRouteInfo segments).totalSunDistance
        = (segments.map RouteSegment.sunDistance).sum ∧
    (aggregateRouteInfo segments).totalShadeDistance
        = (segments.map RouteSegment.shadeDistance).sum ∧
    (0 < (aggregateRouteInfo segments).totalDistance →
      (aggregateRouteInfo segments).shadeRatio =
        (aggregateRouteInfo segments).totalShadeDistance /
          (aggregateRouteInfo segments).totalDistance) ∧
    ((aggregateRouteInfo segments).totalDistance = 0 →
      (aggregateRouteInfo segments).shadeRatio = 0) := by
  unfold aggregateRouteInfo
  dsimp only
  refine ⟨?_, ?_, ?_, ?_, ?_⟩
  · rw [foldl_add_eq_sum]; ring
  · rw [foldl_add_eq_sum]; ring
  · rw [foldl_add_eq_sum]; ring
  · intro h
    rw [if_pos h]
  · intro h
    rw [if_neg (by rw [h]; exact lt_irrefl 0)]

/-- Witness for C9 at a one-segment route: total 150, shade 50, ratio 1/3. -/
theorem aggregateRouteInfo_invariant_witness :
    (aggregateRouteInfo [⟨"a", 100, 50, 150, 1/3⟩]).shadeRatio = 1/3 ∧
    (aggregateRouteInfo [⟨"a", 100, 50, 150, 1/3⟩]).totalDistance = 150 := by
  have htot : (aggregateRouteInfo [⟨"a", 100, 50, 150, 1/3⟩]).totalDistance = 150 := by
    norm_num [aggregateRouteInfo]
  have hsh : (aggregateRouteInfo [⟨"a", 100, 50, 150, 1/3⟩]).totalShadeDistance = 50 := by
    norm_num [aggregateRouteInfo]
  refine ⟨?_, htot⟩
  have h := (aggregateRouteInfo_invariant [⟨"a", 100, 50, 150, 1/3⟩]).2.2.2.1
    (by rw [htot]; norm_num)
  rw [h, hsh, htot]
  norm_num

end CoolWalks

namespace ScientificUV

theorem base_pos (st : SkinType) : 0 < BASE_EXPOSURE_TIME_MINUTES st := by
  cases st <;> norm_num [BASE_EXPOSURE_TIME_MINUTES]

/-- **C6 counterexample.** `calculateSafeExposureTime` is *not* strictly
decreasing in `uvIndex`: for skin type I it returns 1 minute at both UV 66
and UV 67 (the division is rounded to whole minutes). -/
theorem calculateSafeExposureTime_not_strictly_decreasing :
    calculateSafeExposureTime 66 SkinType.I = some 1 ∧
    calculateSafeExposureTime 67 SkinType.I = some 1 := by
  constructor
  · simp only [calculateSafeExposureTime, BASE_EXPOSURE_TIME_MINUTES]
    rw [if_neg (by norm_num)]
    rw [jsRound_eq (67/66) 1 (by norm_num) (by norm_num)]
    norm_num
  · simp only [calculateSafeExposureTime, BASE_EXPOSURE_TIME_MINUTES]
    rw [if_neg (by norm_num)]
    rw [jsRound_eq (67/67) 1 (by norm_num) (by norm_num)]
    norm_num

/-- **C6 (amended).** `calculateSafeExposureTime` returns the unlimited
sentinel exactly when `uvIndex ≤ 0` (no division error), and for positive
UV indices it is monotone non-increasing in `uvIndex` (rounding to whole
minutes makes it non-strict). -/
theorem calculateSafeExposureTime_spec :
    (∀ (uv : ℚ) (st : SkinType), calculateSafeExposureTime uv st = none ↔ uv ≤ 0) ∧
    (∀ (st : SkinType) (a b x y : ℚ), 0 < a → a ≤ b →
      calculateSafeExposureTime a st = some x →
      calculateSafeExposureTime b st = some y → y ≤ x) := by
  constructor
  · intro uv st
    unfold calculateSafeExposureTime
    split_ifs with h
    · simp [h]
    · simp [h]
  · intro st a b x y ha hab hx hy
    unfold calculateSafeExposureTime at hx hy
    rw [if_neg (by linarith)] at hx
    rw [if_neg (by linarith)] at hy
    have hx' : x = (jsRound (BASE_EXPOSURE_TIME_MINUTES st / a) : ℚ) :=
      (Option.some.inj hx).symm
    have hy' : y = (jsRound (BASE_EXPOSURE_TIME_MINUTES st / b) : ℚ) :=
      (Option.some.inj hy).symm
    rw [hx', hy']
    have hdiv : BASE_EXPOSURE_TIME_MINUTES st / b ≤ BASE_EXPOSURE_TIME_MINUTES st / a := by
      apply div_le_div_of_nonneg_left (le_of_lt (base_pos st)) ha hab
    exact_mod_cast jsRound_mono hdiv

/-- Witness for C6: skin type II gives 20 safe minutes at UV 5 and 10 at
UV 10; the theorem yields `10 ≤ 20`. -/
theorem calculateSafeExposureTime_spec_witness :
    calculateSafeExposureTime 5 SkinType.II = some 20 ∧
    calculateSafeExposureTime 10 SkinType.II = some 10 ∧
    ((10 : ℚ) ≤ 20) := by
  have h5 : calculateSafeExposureTime 5 SkinType.II = some 20 := by
    simp only [calculateSafeExposureTime, BASE_EXPOSURE_TIME_MINUTES]
    rw [if_neg (by norm_num)]
    rw [jsRound_eq (100/5) 20 (by norm_num) (by norm_num)]
    norm_num
  have h10 : calculateSafeExposureTime 10 SkinType.II = some 10 := by
    simp only [calculateSafeExposureTime, BASE_EXPOSURE_TIME_MINUTES]
    rw [if_neg (by norm_num)]
    rw [jsRound_eq (100/10) 10 (by norm_num) (by norm_num)]
    norm_num
  exact ⟨h5, h10,
    calculateSafeExposureTime_spec.2 SkinType.II 5 10 20 10 (by norm_num) (by norm_num) h5 h10⟩

end ScientificUV

namespace AdvancedShade

/-- **C4.** `calculateBuildingShadow` returns `none` exactly when the sun is
not above the horizon, or the shadow length `height / tan(altitude)` is ≤ 0,
or it exceeds the 500 m cutoff; `calculateAllShadows` is empty whenever the
sun is below the horizon and in general keeps exactly the buildings whose
individual shadow is non-`none`, in order (a `filterMap`). -/
theorem calculateBuildingShadow_none_iff (M : JsMath) (building : Building)
    (sp : SunPosition) (lat : ℚ) :
    (calculateBuildingShadow M building sp lat = none ↔
      sp.altitude ≤ 0 ∨ building.height / M.tan sp.altitude ≤ 0 ∨
        500 < building.height / M.tan sp.altitude) ∧
    (∀ buildings : List Building, sp.altitude ≤ 0 →
      calculateAllShadows M buildings sp lat = []) ∧
    (∀ buildings : List Building, calculateAllShadows M buildings sp lat =
      buildings.filterMap (fun b => calculateBuildingShadow M b sp lat)) := by
  refine ⟨?_, ?_, ?_⟩
  · unfold calculateBuildingShadow isSunAboveHorizon
    by_cases halt : 0 < sp.altitude
    · rw [if_neg (by simp [halt])]
      by_cases hlen : building.height / M.tan sp.altitude ≤ 0 ∨
          500 < building.height / M.tan sp.altitude
      · rw [if_pos hlen]
        exact ⟨fun _ => Or.inr hlen, fun _ => rfl⟩
      · rw [if_neg hlen]
        constructor
        · intro h
          simp at h
        · rintro (h | h)
          · linarith
          · exact absurd h hlen
    · rw [if_pos (by simp [halt])]
      exact ⟨fun _ => Or.inl (le_of_not_lt halt), fun _ => rfl⟩
  · intro buildings halt
    unfold calculateAllShadows isSunAboveHorizon
    rw [if_pos (by simp; linarith)]
  · intro buildings
    unfold calculateAllShadows
    by_cases halt : 0 < sp.altitude
    · rw [if_neg (by simp [isSunAboveHorizon, halt])]
    · rw [if_pos (by simp [isSunAboveHorizon]; exact le_of_not_lt halt)]
      induction buildings with
      | nil => simp
      | cons b bs ih =>
        rw [List.filterMap_cons]
        have hb : calculateBuildingShadow M b sp lat = none := by
          unfold calculateBuildingShadow isSunAboveHorizon
          rw [if_pos (by simp [halt])]
        rw [hb]
        exact ih

/-- Witness for C4: with the sun below the horizon, the concrete building
produces no shadow and the shadow list is empty. -/
theorem calculateBuildingShadow_none_iff_witness :
    calculateAllShadows demoMath [demoBuilding] demoSunBelow (356812/10000) = [] ∧
    calculateBuildingShadow demoMath demoBuilding demoSunBelow (356812/10000) = none :=
  ⟨(calculateBuildingShadow_none_iff demoMath demoBuilding demoSunBelow
      (356812/10000)).2.1 [demoBuilding] (by norm_num [demoSunBelow]),
   (calculateBuildingShadow_none_iff demoMath demoBuilding demoSunBelow
      (356812/10000)).1.mpr (Or.inl (by norm_num [demoSunBelow]))⟩

/-- **C7.** Every shadow polygon produced by `calculateBuildingShadow` has
`opacity = min(0.8, 0.3 + (altitudeDegrees/90) × 0.5)`, which lies in
`[0.3, 0.8]` for every sun altitude in `(0°, 90°]`. -/
theorem calculateBuildingShadow_opacity (M : JsMath) (building : Building)
    (sp : SunPosition) (lat : ℚ) (s : ShadowPolygon)
    (h : calculateBuildingShadow M building sp lat = some s) :
    s.opacity = min (8/10) (3/10 + sp.altitudeDegrees / 90 * (5/10)) ∧
    (0 < sp.altitudeDegrees → sp.altitudeDegrees ≤ 90 →
      3/10 ≤ s.opacity ∧ s.opacity ≤ 8/10) := by
  by_cases h1 : isSunAboveHorizon sp = true
  · rw [calculateBuildingShadow, if_neg (by simp [h1])] at h
    dsimp only at h
    by_cases h2 : building.height / M.tan sp.altitude ≤ 0 ∨
        500 < building.height / M.tan sp.altitude
    · rw [if_pos h2] at h
      exact absurd h (by simp)
    · rw [if_neg h2] at h
      obtain rfl := Option.some.inj h
      refine ⟨rfl, ?_⟩
      intro hdeg0 _
      constructor
      · have hnn : (0:ℚ) ≤ sp.altitudeDegrees / 90 * (5/10) := by positivity
        apply le_min (by norm_num)
        show (3:ℚ)/10 ≤ 3/10 + sp.altitudeDegrees / 90 * (5/10)
        linarith
      · exact min_le_left _ _
  · rw [calculateBuildingShadow, if_pos (by simp [h1])] at h
    exact absurd h (by simp)

/-- Witness for C7 at the spec scenario: height 30 m, `tan(altitude) = 1`
(45° sun), shadow produced, opacity `0.55`. -/
theorem calculateBuildingShadow_opacity_witness :
    (calculateBuildingShadow demoMath demoBuilding demoSun (356812/10000)).map
        ShadowPolygon.opacity = some (11/20) ∧
    (calculateBuildingShadow demoMath demoBuilding demoSun (356812/10000)).isSome
      = true := by
  cases hs : calculateBuildingShadow demoMath demoBuilding demoSun (356812/10000) with
  | none =>
    exfalso
    rw [calculateBuildingShadow, if_neg (by norm_num [isSunAboveHorizon, demoSun]),
      if_neg (by norm_num [demoMath, demoBuilding])] at hs
    simp at hs
  | some s =>
    have h := calculateBuildingShadow_opacity demoMath demoBuilding demoSun
      (356812/10000) s hs
    constructor
    · simp only [Option.map_some']
      rw [h.1]
      norm_num [demoSun, min_def]
    · rfl

end AdvancedShade

namespace ShadeRoute

open AdvancedShade (ShadowPolygon)

/-- **C8.** `calculateRouteShadePercentage` returns 0 for a polyline of fewer
than 2 points or an empty shadow list; it always lies in `[0, 100]`; and every
edge gets at least one sample (`numSamples ≥ 1`, hence `numSamples + 1 ≥ 2`
sample points). -/
theorem calculateRouteShadePercentage_spec (calculateDistance : ℚ → ℚ → ℚ → ℚ → ℚ)
    (route : List Coordinate) (shadows : List ShadowPolygon)
    (sampleInterval : ℚ) (hpos : 0 < sampleInterval) :
    (route.length < 2 →
      calculateRouteShadePercentage calculateDistance route shadows sampleInterval = 0) ∧
    (shadows = [] →
      calculateRouteShadePercentage calculateDistance route shadows sampleInterval = 0) ∧
    0 ≤ calculateRouteShadePercentage calculateDistance route shadows sampleInterval ∧
    calculateRouteShadePercentage calculateDistance route shadows sampleInterval ≤ 100 ∧
    (∀ d : ℚ, 1 ≤ numSamplesOf d sampleInterval) := by
  have hsamples : ∀ d : ℚ, 1 ≤ numSamplesOf d sampleInterval := by
    intro d
    unfold numSamplesOf
    have := le_max_left 1 ⌈d / sampleInterval⌉
    omega
  refine ⟨?_, ?_, ?_, ?_, hsamples⟩
  · intro h
    unfold calculateRouteShadePercentage
    rw [if_pos (Or.inl h)]
  · intro h
    unfold calculateRouteShadePercentage
    rw [if_pos (Or.inr (by simp [h]))]
  · unfold calculateRouteShadePercentage
    split_ifs with h1
    · exact le_refl 0
    · dsimp only
      split_ifs with h2
      · positivity
      · exact le_refl 0
  · unfold calculateRouteShadePercentage
    split_ifs with h1
    · norm_num
    · dsimp only
      set counts := (route.zip route.tail).map (fun e =>
        let segmentDistance :=
          calculateDistance e.1.latitude e.1.longitude e.2.latitude e.2.longitude
        let numSamples := numSamplesOf segmentDistance sampleInterval
        (((List.range (numSamples + 1)).filter (fun j =>
            AdvancedShade.isPointInShade (samplePointAt e.1 e.2 numSamples j) shadows)).length,
          numSamples + 1)) with hcounts
      split_ifs with h2
      · have hle : ((counts.map Prod.fst).sum : ℕ) ≤ (counts.map Prod.snd).sum := by
          apply List.sum_le_sum
          intro c hc
          rw [hcounts] at hc
          obtain ⟨e, _, he⟩ := List.mem_map.1 hc
          rw [← he]
          dsimp only
          calc ((List.range (numSamplesOf _ sampleInterval + 1)).filter _).length
              ≤ (List.range (numSamplesOf _ sampleInterval + 1)).length :=
                List.length_filter_le _ _
            _ = numSamplesOf _ sampleInterval + 1 := List.length_range _
        have htpos : (0 : ℚ) < ((counts.map Prod.snd).sum : ℕ) := by exact_mod_cast h2
        have hcast : ((counts.map Prod.fst).sum : ℚ) ≤ ((counts.map Prod.snd).sum : ℕ) := by
          exact_mod_cast hle
        have hdiv : ((counts.map Prod.fst).sum : ℚ) / ((counts.map Prod.snd).sum : ℕ) ≤ 1 :=
          (div_le_one htpos).2 hcast
        nlinarith
      · norm_num

/-- Witness for C8: a two-point route with no shadows gives a 0% result, and
the sampling count at distance 25 m with a 10 m interval is at least one. -/
theorem calculateRouteShadePercentage_spec_witness :
    calculateRouteShadePercentage (fun _ _ _ _ => 25)
      [⟨0, 0⟩, ⟨0, 1⟩] [] 10 = 0 ∧
    1 ≤ numSamplesOf 25 10 := by
  have h := calculateRouteShadePercentage_spec (fun _ _ _ _ => 25)
    [⟨0, 0⟩, ⟨0, 1⟩] [] 10 (by norm_num)
  exact ⟨h.2.1 rfl, h.2.2.2.2 25⟩

theorem pathTo_ne_nil : ∀ n : SearchNode, n.pathTo ≠ []
  | .mk lat lon g h f none => by simp [SearchNode.pathTo]
  | .mk lat lon g h f (some p) => by simp [SearchNode.pathTo]

theorem pathTo_head : ∀ n : SearchNode,
    n.pathTo.head? = some ⟨n.rootLatLon.1, n.rootLatLon.2⟩
  | .mk lat lon g h f none => by simp [SearchNode.pathTo, SearchNode.rootLatLon]
  | .mk lat lon g h f (some p) => by
    obtain ⟨a, as, hp⟩ := List.exists_cons_of_ne_nil (pathTo_ne_nil p)
    have hh := pathTo_head p
    rw [show (SearchNode.mk lat lon g h f (some p)).pathTo
        = p.pathTo ++ [⟨lat, lon⟩] from rfl,
      show (SearchNode.mk lat lon g h f (some p)).rootLatLon = p.rootLatLon from rfl,
      hp]
    rw [hp] at hh
    simpa using hh

theorem mem_replaceFirstByKey {l : List SearchNode} {key : ℤ × ℤ}
    {nw n : SearchNode} (h : n ∈ replaceFirstByKey l key nw) : n ∈ l ∨ n = nw := by
  induction l with
  | nil => simp [replaceFirstByKey] at h
  | cons m ms ih =>
    unfold replaceFirstByKey at h
    split_ifs at h with hk
    · rcases List.mem_cons.1 h with h1 | h1
      · exact Or.inr h1
      · exact Or.inl (List.mem_cons_of_mem _ h1)
    · rcases List.mem_cons.1 h with h1 | h1
      · exact Or.inl (h1 ▸ List.mem_cons_self _ _)
      · rcases ih h1 with h2 | h2
        · exact Or.inl (List.mem_cons_of_mem _ h2)
        · exact Or.inr h2

theorem considerNeighbor_mem (calculateDistance : ℚ → ℚ → ℚ → ℚ → ℚ)
    (endPoint : Coordinate) (shadows : List ShadowPolygon)
    (options : RouteOptions) (maxDistance : ℚ) (current : SearchNode)
    (closedSet : List (ℤ × ℤ)) (acc : List SearchNode) (neighbor : Coordinate)
    {n : SearchNode}
    (h : n ∈ considerNeighbor calculateDistance endPoint shadows options
      maxDistance current closedSet acc neighbor) :
    n ∈ acc ∨ n.rootLatLon = current.rootLatLon := by
  unfold considerNeighbor at h
  dsimp only at h
  split_ifs at h <;>
    first
      | exact Or.inl h
      | (split at h
         · split_ifs at h
           · rcases mem_replaceFirstByKey h with h4 | h4
             · exact Or.inl h4
             · refine Or.inr ?_
               rw [h4]
               rfl
           · exact Or.inl h
         · rcases List.mem_append.1 h with h4 | h4
           · exact Or.inl h4
           · refine Or.inr ?_
             rw [List.mem_singleton.1 h4]
             rfl)

theorem stepNeighbors_root (calculateDistance : ℚ → ℚ → ℚ → ℚ → ℚ)
    (endPoint : Coordinate) (shadows : List ShadowPolygon)
    (buildings : List Building) (options : RouteOptions) (maxDistance : ℚ)
    (current : SearchNode) (closedSet : List (ℤ × ℤ)) {root : ℚ × ℚ}
    (hcur : current.rootLatLon = root) :
    ∀ (openSet : List SearchNode), (∀ n ∈ openSet, n.rootLatLon = root) →
    ∀ n ∈ stepNeighbors calculateDistance endPoint shadows buildings options
      maxDistance current closedSet openSet, n.rootLatLon = root := by
  unfold stepNeighbors
  generalize getNeighbors buildings current = nbs
  induction nbs with
  | nil =>
    intro os hos n hn
    exact hos n hn
  | cons nb nbs ih =>
    intro os hos n hn
    rw [List.foldl_cons] at hn
    refine ih _ ?_ n hn
    intro m hm
    rcases considerNeighbor_mem calculateDistance endPoint shadows options
      maxDistance current closedSet os nb hm with h1 | h1
    · exact hos m h1
    · rw [h1, hcur]

theorem generateDirectRoute_eval (start endPoint : Coordinate) :
    generateDirectRoute start endPoint =
      ((List.range 21).map (fun i =>
        let t : ℚ := (i : ℚ) / 20
        Coordinate.mk (start.latitude + (endPoint.latitude - start.latitude) * t)
          (start.longitude + (endPoint.longitude - start.longitude) * t))) := rfl

theorem generateDirectRoute_ne_nil (start endPoint : Coordinate) :
    generateDirectRoute start endPoint ≠ [] := by
  intro h
  rw [generateDirectRoute] at h
  have h2 := congrArg List.length h
  rw [List.length_map, List.length_range] at h2
  exact absurd h2 (by norm_num)

theorem generateDirectRoute_head (start endPoint : Coordinate) :
    (generateDirectRoute start endPoint).head? = some start := by
  obtain ⟨slat, slon⟩ := start
  rw [generateDirectRoute, List.head?_map,
    show (List.range 21).head? = some 0 from rfl]
  simp only [Option.map_some', Option.some_inj, Coordinate.mk.injEq]
  norm_num

theorem generateDirectRoute_getLast (start endPoint : Coordinate) :
    (generateDirectRoute start endPoint).getLast? = some endPoint := by
  obtain ⟨elat, elon⟩ := endPoint
  rw [generateDirectRoute, List.getLast?_map,
    show (List.range 21).getLast? = some 20 from rfl]
  simp only [Option.map_some', Option.some_inj, Coordinate.mk.injEq]
  constructor <;> push_cast <;> ring

theorem aStarLoop_spec (calculateDistance : ℚ → ℚ → ℚ → ℚ → ℚ)
    (start endPoint : Coordinate) (shadows : List ShadowPolygon)
    (buildings : List Building) (options : RouteOptions) (maxDistance : ℚ) :
    ∀ (fuel : ℕ) (openSet : List SearchNode) (closedSet : List (ℤ × ℤ)),
    (∀ n ∈ openSet, n.rootLatLon = (start.latitude, start.longitude)) →
    (aStarLoop calculateDistance start endPoint shadows buildings options
        maxDistance fuel openSet closedSet ≠ [] ∧
      (aStarLoop calculateDistance start endPoint shadows buildings options
        maxDistance fuel openSet closedSet).head? = some start ∧
      (aStarLoop calculateDistance start endPoint shadows buildings options
        maxDistance fuel openSet closedSet).getLast? = some endPoint) := by
  intro fuel
  induction fuel with
  | zero =>
    intro os cs _
    exact ⟨generateDirectRoute_ne_nil start endPoint,
      generateDirectRoute_head start endPoint,
      generateDirectRoute_getLast start endPoint⟩
  | succ fuel ih =>
    intro openSet closedSet hroot
    have hperm : ∀ n ∈ sortByF openSet, n ∈ openSet := by
      intro n hn
      unfold sortByF at hn
      exact (List.perm_insertionSort
        (fun a b => SearchNode.f a ≤ SearchNode.f b) openSet).subset hn
    rw [show aStarLoop calculateDistance start endPoint shadows buildings options
        maxDistance (fuel + 1) openSet closedSet =
      (match sortByF openSet with
      | [] => generateDirectRoute start endPoint
      | current :: rest =>
        if calculateDistance current.lat current.lon endPoint.latitude
            endPoint.longitude < 20 then
          current.pathTo ++ [endPoint]
        else
          let currentKey := getKey current.lat current.lon
          if currentKey ∈ closedSet then
            aStarLoop calculateDistance start endPoint shadows buildings options
              maxDistance fuel rest closedSet
          else
            aStarLoop calculateDistance start endPoint shadows buildings options
              maxDistance fuel
              (stepNeighbors calculateDistance endPoint shadows buildings options
                maxDistance current (currentKey :: closedSet) rest)
              (currentKey :: closedSet)) from rfl]
    cases hsort : sortByF openSet with
    | nil =>
      exact ⟨generateDirectRoute_ne_nil start endPoint,
        generateDirectRoute_head start endPoint,
        generateDirectRoute_getLast start endPoint⟩
    | cons current rest =>
      have hcur : current.rootLatLon = (start.latitude, start.longitude) :=
        hroot current (hperm current (by rw [hsort]; exact List.mem_cons_self _ _))
      have hrest : ∀ n ∈ rest, n.rootLatLon = (start.latitude, start.longitude) :=
        fun n hn => hroot n (hperm n (by rw [hsort]; exact List.mem_cons_of_mem _ hn))
      dsimp only
      by_cases hnear : calculateDistance current.lat current.lon
          endPoint.latitude endPoint.longitude < 20
      · rw [if_pos hnear]
        obtain ⟨a, as, hp⟩ := List.exists_cons_of_ne_nil (pathTo_ne_nil current)
        have hh := pathTo_head current
        rw [hp] at hh
        simp only [List.head?_cons, Option.some_inj] at hh
        refine ⟨by simp [hp], ?_, by simp⟩
        rw [hp]
        simp only [List.cons_append, List.head?_cons, hh, hcur]
      · rw [if_neg hnear]
        by_cases hck : getKey current.lat current.lon ∈ closedSet
        · rw [if_pos hck]
          exact ih rest closedSet hrest
        · rw [if_neg hck]
          refine ih _ _ ?_
          exact stepNeighbors_root calculateDistance endPoint shadows buildings
            options maxDistance current (getKey current.lat current.lon :: closedSet)
            hcur rest hrest

/-- **C2.** For every start, end, shadow list, building list, options and
every interpretation of the haversine distance, the grid A* pathfinder (whose
iteration budget is the explicit fuel `maxIterations = 5000` of `aStarLoop`)
returns a non-empty path beginning exactly at `start` and ending exactly at
`end`; and whenever the fuel is exhausted or the open set is empty it returns
the straight-line interpolation `generateDirectRoute start end` (it never
fails). -/
theorem generateShadeOptimizedRoute_spec (calculateDistance : ℚ → ℚ → ℚ → ℚ → ℚ)
    (start endPoint : Coordinate) (shadows : List ShadowPolygon)
    (buildings : List Building) (options : RouteOptions) :
    (generateShadeOptimizedRoute calculateDistance start endPoint shadows
        buildings options ≠ [] ∧
      (generateShadeOptimizedRoute calculateDistance start endPoint shadows
        buildings options).head? = some start ∧
      (generateShadeOptimizedRoute calculateDistance start endPoint shadows
        buildings options).getLast? = some endPoint) ∧
    (∀ (maxDistance : ℚ) (openSet : List SearchNode) (closedSet : List (ℤ × ℤ)),
      aStarLoop calculateDistance start endPoint shadows buildings options
        maxDistance 0 openSet closedSet = generateDirectRoute start endPoint) ∧
    (∀ (maxDistance : ℚ) (fuel : ℕ) (closedSet : List (ℤ × ℤ)),
      aStarLoop calculateDistance start endPoint shadows buildings options
        maxDistance fuel [] closedSet = generateDirectRoute start endPoint) := by
  refine ⟨?_, fun _ _ _ => rfl, ?_⟩
  · apply aStarLoop_spec
    intro n hn
    rw [List.mem_singleton.1 hn]
    rfl
  · intro maxDistance fuel closedSet
    cases fuel with
    | zero => rfl
    | succ fuel => rfl

end ShadeRoute

theorem jsRound_sum_complement (p : ℚ) :
    jsRound p + jsRound (100 - p) = if p - ⌊p⌋ = 1/2 then 101 else 100 := by
  have hf0 : (0:ℚ) ≤ p - ⌊p⌋ := by
    have := Int.floor_le p
    linarith
  have hf1 : p - ⌊p⌋ < 1 := by
    have := Int.lt_floor_add_one p
    linarith
  by_cases hf : p - ⌊p⌋ = 1/2
  · rw [if_pos hf]
    have h1 : jsRound p = ⌊p⌋ + 1 :=
      jsRound_eq _ _ (by push_cast; linarith) (by push_cast; linarith)
    have h2 : jsRound (100 - p) = 100 - ⌊p⌋ :=
      jsRound_eq _ _ (by push_cast; linarith) (by push_cast; linarith)
    rw [h1, h2]
    ring
  · rcases lt_or_gt_of_ne hf with hl | hg
    · have h1 : jsRound p = ⌊p⌋ :=
        jsRound_eq _ _ (by push_cast; linarith) (by push_cast; linarith)
      have h2 : jsRound (100 - p) = 100 - ⌊p⌋ :=
        jsRound_eq _ _ (by push_cast; linarith) (by push_cast; linarith)
      rw [if_neg hf, h1, h2]
      ring
    · have h1 : jsRound p = ⌊p⌋ + 1 :=
        jsRound_eq _ _ (by push_cast; linarith) (by push_cast; linarith)
      have h2 : jsRound (100 - p) = 99 - ⌊p⌋ :=
        jsRound_eq _ _ (by push_cast; linarith) (by push_cast; linarith)
      rw [if_neg hf, h1, h2]
      ring

namespace RouteAnalyzer

open AdvancedShade (ShadowPolygon SunPosition)

theorem segInfos_fst_nonneg (calculateDistance : RoutePoint → RoutePoint → ℚ)
    (shadows : List ShadowPolygon) (route : Route)
    (hdist : ∀ e ∈ route.geometry.zip route.geometry.tail, 0 ≤ calculateDistance e.1 e.2) :
    ∀ x ∈ segInfos calculateDistance shadows route, 0 ≤ x.1 := by
  intro x hx
  obtain ⟨e, he, rfl⟩ := List.mem_map.1 hx
  exact hdist e he

theorem shadedDistanceOf_nonneg (calculateDistance : RoutePoint → RoutePoint → ℚ)
    (shadows : List ShadowPolygon) (route : Route)
    (hdist : ∀ e ∈ route.geometry.zip route.geometry.tail, 0 ≤ calculateDistance e.1 e.2) :
    0 ≤ shadedDistanceOf calculateDistance shadows route := by
  apply List.sum_nonneg
  intro x hx
  obtain ⟨y, hy, rfl⟩ := List.mem_map.1 hx
  exact segInfos_fst_nonneg calculateDistance shadows route hdist y
    (List.mem_of_mem_filter hy)

theorem shadedDistanceOf_le_total (calculateDistance : RoutePoint → RoutePoint → ℚ)
    (shadows : List ShadowPolygon) (route : Route)
    (hdist : ∀ e ∈ route.geometry.zip route.geometry.tail, 0 ≤ calculateDistance e.1 e.2) :
    shadedDistanceOf calculateDistance shadows route ≤
      totalDistanceOf calculateDistance shadows route := by
  apply List.Sublist.sum_le_sum
  · exact ((segInfos calculateDistance shadows route).filter_sublist).map Prod.fst
  · intro a ha
    obtain ⟨y, hy, rfl⟩ := List.mem_map.1 ha
    exact segInfos_fst_nonneg calculateDistance shadows route hdist y hy

/-- **C3 (amended).** With the sun below the horizon, `analyzeRouteShade`
shortcuts to `shadePercentage = 100`, `uvExposure = 0`, recommended. With the
sun above the horizon, non-negative edge distances and positive total
distance: the stored `shadePercentage` lies in `[0, 100]`;
`shadePercentage + uvExposure` is 100 *unless* the exact shade percentage has
fractional part exactly 1/2, in which case the two independent roundings make
the sum 101; and `isRecommended` holds iff the exact (pre-rounding) shade
percentage exceeds 50 — which can disagree with `shadePercentage > 50` read
from the rounded field. -/
theorem analyzeRouteShade_spec (M : JsMath)
    (calculateDistance : RoutePoint → RoutePoint → ℚ)
    (sunPosition : SunPosition) (route : Route) (buildings : List Building) :
    (sunPosition.altitude ≤ 0 →
      (analyzeRouteShade M calculateDistance sunPosition route buildings).shadePercentage
          = 100 ∧
      (analyzeRouteShade M calculateDistance sunPosition route buildings).uvExposure = 0 ∧
      (analyzeRouteShade M calculateDistance sunPosition route buildings).isRecommended
          = true) ∧
    (0 < sunPosition.altitude →
      (∀ e ∈ route.geometry.zip route.geometry.tail, 0 ≤ calculateDistance e.1 e.2) →
      0 < totalDistanceOf calculateDistance (shadowsOf M sunPosition route buildings)
          route →
      (0 ≤ (analyzeRouteShade M calculateDistance sunPosition route buildings).shadePercentage ∧
        (analyzeRouteShade M calculateDistance sunPosition route buildings).shadePercentage
          ≤ 100) ∧
      ((analyzeRouteShade M calculateDistance sunPosition route buildings).shadePercentage +
        (analyzeRouteShade M calculateDistance sunPosition route buildings).uvExposure =
        if rawShadePercentageOf M calculateDistance sunPosition route buildings -
            ⌊rawShadePercentageOf M calculateDistance sunPosition route buildings⌋ = 1/2
        then 101 else 100) ∧
      ((analyzeRouteShade M calculateDistance sunPosition route buildings).isRecommended
          = true ↔
        50 < rawShadePercentageOf M calculateDistance sunPosition route buildings)) := by
  constructor
  · intro halt
    unfold analyzeRouteShade
    rw [if_pos (by simp [AdvancedShade.isSunAboveHorizon]; linarith)]
    exact ⟨rfl, rfl, rfl⟩
  · intro halt hdist hpos
    have hS0 := shadedDistanceOf_nonneg calculateDistance
      (shadowsOf M sunPosition route buildings) route hdist
    have hST := shadedDistanceOf_le_total calculateDistance
      (shadowsOf M sunPosition route buildings) route hdist
    have hA : analyzeRouteShade M calculateDistance sunPosition route buildings =
        { route := route
          shadePercentage := (jsRound (shadedDistanceOf calculateDistance
            (shadowsOf M sunPosition route buildings) route /
            totalDistanceOf calculateDistance
              (shadowsOf M sunPosition route buildings) route * 100) : ℚ)
          shadedDistance := (jsRound (shadedDistanceOf calculateDistance
            (shadowsOf M sunPosition route buildings) route) : ℚ)
          exposedDistance := (jsRound (totalDistanceOf calculateDistance
            (shadowsOf M sunPosition route buildings) route -
            shadedDistanceOf calculateDistance
              (shadowsOf M sunPosition route buildings) route) : ℚ)
          uvExposure := (jsRound ((totalDistanceOf calculateDistance
            (shadowsOf M sunPosition route buildings) route -
            shadedDistanceOf calculateDistance
              (shadowsOf M sunPosition route buildings) route) /
            totalDistanceOf calculateDistance
              (shadowsOf M sunPosition route buildings) route * 100) : ℚ)
          isRecommended := decide (shadedDistanceOf calculateDistance
            (shadowsOf M sunPosition route buildings) route /
            totalDistanceOf calculateDistance
              (shadowsOf M sunPosition route buildings) route * 100 > 50) } := by
      unfold analyzeRouteShade
      rw [if_neg (by simp [AdvancedShade.isSunAboveHorizon]; linarith)]
      dsimp only
      rw [if_pos (show 0 < totalDistanceOf calculateDistance
        (AdvancedShade.calculateAllShadows M buildings sunPosition
          ((route.geometry.headD ⟨0, 0⟩).latitude)) route from hpos)]
      rfl
    set S := shadedDistanceOf calculateDistance
      (shadowsOf M sunPosition route buildings) route with hSdef
    set T := totalDistanceOf calculateDistance
      (shadowsOf M sunPosition route buildings) route with hTdef
    have hraw : rawShadePercentageOf M calculateDistance sunPosition route buildings
        = S / T * 100 := rfl
    have hp0 : 0 ≤ S / T * 100 :=
      mul_nonneg (div_nonneg hS0 (le_of_lt hpos)) (by norm_num)
    have hp100 : S / T * 100 ≤ 100 := by
      have h1 : S / T ≤ 1 := (div_le_one hpos).2 hST
      linarith
    have hr0 : jsRound 0 = 0 := jsRound_eq _ _ (by norm_num) (by norm_num)
    have hr100 : jsRound 100 = 100 := jsRound_eq _ _ (by norm_num) (by norm_num)
    refine ⟨⟨?_, ?_⟩, ?_, ?_⟩
    · rw [hA]
      dsimp only
      have h1 : jsRound 0 ≤ jsRound (S / T * 100) := jsRound_mono hp0
      rw [hr0] at h1
      exact_mod_cast h1
    · rw [hA]
      dsimp only
      have h1 : jsRound (S / T * 100) ≤ jsRound 100 := jsRound_mono hp100
      rw [hr100] at h1
      exact_mod_cast h1
    · rw [hA, hraw]
      have hT0 : T ≠ 0 := ne_of_gt hpos
      have hcompl : (T - S) / T * 100 = 100 - S / T * 100 := by
        field_simp
        ring
      rw [hcompl]
      dsimp only
      have hsum := jsRound_sum_complement (S / T * 100)
      by_cases hfr : S / T * 100 - ⌊S / T * 100⌋ = 1/2
      · rw [if_pos hfr] at hsum ⊢
        exact_mod_cast hsum
      · rw [if_neg hfr] at hsum ⊢
        exact_mod_cast hsum
    · rw [hA, hraw]
      simp [decide_eq_true_eq]

end RouteAnalyzer

namespace RouteAnalyzer

theorem cGeomLat : (cRoute.geometry.headD ⟨0, 0⟩).latitude = 11157/11132 := by
  norm_num [cRoute, cP0]

theorem cShadows_eval :
    AdvancedShade.calculateAllShadows AdvancedShade.demoMath [cBuilding] cSun
      (11157/11132) = [⟨"cb", cPolygon, 11/20⟩] := by
  rw [AdvancedShade.calculateAllShadows,
    if_neg (by norm_num [AdvancedShade.isSunAboveHorizon, cSun])]
  norm_num [AdvancedShade.calculateBuildingShadow, AdvancedShade.isSunAboveHorizon,
    AdvancedShade.demoMath, cBuilding, cSun, cPolygon, List.filterMap_cons, min_def]

theorem cMid1_inShade :
    isPointInShade ⟨11157/11132, 1/2⟩ [⟨"cb", cPolygon, 11/20⟩] = true := by
  norm_num [isPointInShade, isPointInPolygonXY, cyclicPairs, cPolygon, List.dropLast]

theorem cMid2_notInShade :
    isPointInShade ⟨11157/11132, 57/20⟩ [⟨"cb", cPolygon, 11/20⟩] = false := by
  norm_num [isPointInShade, isPointInPolygonXY, cyclicPairs, cPolygon, List.dropLast]

theorem cSegA_eval :
    segInfos cDistA [⟨"cb", cPolygon, 11/20⟩] cRoute = [(1005, true), (995, false)] := by
  rw [segInfos]
  norm_num [cRoute, cP0, cP1, cP2, cDistA, cMid1_inShade, cMid2_notInShade]

theorem cSegB_eval :
    segInfos cDistB [⟨"cb", cPolygon, 11/20⟩] cRoute = [(101, true), (99, false)] := by
  rw [segInfos]
  norm_num [cRoute, cP0, cP1, cP2, cDistB, cMid1_inShade, cMid2_notInShade]

theorem cTotalA : totalDistanceOf cDistA [⟨"cb", cPolygon, 11/20⟩] cRoute = 2000 := by
  rw [totalDistanceOf, cSegA_eval]
  norm_num

theorem cShadedA : shadedDistanceOf cDistA [⟨"cb", cPolygon, 11/20⟩] cRoute = 1005 := by
  rw [shadedDistanceOf, cSegA_eval]
  norm_num [List.filter]

theorem cTotalB : totalDistanceOf cDistB [⟨"cb", cPolygon, 11/20⟩] cRoute = 200 := by
  rw [totalDistanceOf, cSegB_eval]
  norm_num

theorem cShadedB : shadedDistanceOf cDistB [⟨"cb", cPolygon, 11/20⟩] cRoute = 101 := by
  rw [shadedDistanceOf, cSegB_eval]
  norm_num [List.filter]

/-- **C3 counterexample.** At a concrete above-horizon input whose two edges
measure 1005 m (shaded) and 995 m (exposed), the exact shade percentage is
50.25: the analyzer stores `shadePercentage = 50` yet `isRecommended = true`,
contradicting "isRecommended exactly when shadePercentage > 50". At the same
geometry with edge lengths 101 m and 99 m the exact percentage is 50.5 and
the two independently rounded fields sum to 101, contradicting
"shadePercentage + uvExposure == 100". -/
theorem analyzeRouteShade_counterexample :
    ((analyzeRouteShade AdvancedShade.demoMath cDistA cSun cRoute
        [cBuilding]).isRecommended = true ∧
      (analyzeRouteShade AdvancedShade.demoMath cDistA cSun cRoute
        [cBuilding]).shadePercentage = 50) ∧
    (analyzeRouteShade AdvancedShade.demoMath cDistB cSun cRoute
        [cBuilding]).shadePercentage +
      (analyzeRouteShade AdvancedShade.demoMath cDistB cSun cRoute
        [cBuilding]).uvExposure = 101 := by
  have hA : analyzeRouteShade AdvancedShade.demoMath cDistA cSun cRoute [cBuilding]
      = ⟨cRoute, 50, 1005, 995, 50, true⟩ := by
    unfold analyzeRouteShade
    rw [if_neg (by norm_num [AdvancedShade.isSunAboveHorizon, cSun])]
    dsimp only
    rw [cGeomLat, cShadows_eval, cTotalA, cShadedA, if_pos (by norm_num)]
    rw [jsRound_eq ((1005 : ℚ) / 2000 * 100) 50 (by norm_num) (by norm_num),
      jsRound_eq (1005 : ℚ) 1005 (by norm_num) (by norm_num),
      jsRound_eq ((2000 : ℚ) - 1005) 995 (by norm_num) (by norm_num),
      jsRound_eq (((2000 : ℚ) - 1005) / 2000 * 100) 50 (by norm_num) (by norm_num)]
    norm_num [RouteAnalysis.mk.injEq]
  have hB : analyzeRouteShade AdvancedShade.demoMath cDistB cSun cRoute [cBuilding]
      = ⟨cRoute, 51, 101, 99, 50, true⟩ := by
    unfold analyzeRouteShade
    rw [if_neg (by norm_num [AdvancedShade.isSunAboveHorizon, cSun])]
    dsimp only
    rw [cGeomLat, cShadows_eval, cTotalB, cShadedB, if_pos (by norm_num)]
    rw [jsRound_eq ((101 : ℚ) / 200 * 100) 51 (by norm_num) (by norm_num),
      jsRound_eq (101 : ℚ) 101 (by norm_num) (by norm_num),
      jsRound_eq ((200 : ℚ) - 101) 99 (by norm_num) (by norm_num),
      jsRound_eq (((200 : ℚ) - 101) / 200 * 100) 50 (by norm_num) (by norm_num)]
    norm_num [RouteAnalysis.mk.injEq]
  rw [hA, hB]
  norm_num

/-- Witness for C3: the below-horizon shortcut at a concrete input, and the
rounded-percentage bounds at the concrete above-horizon input, both obtained
from the theorem with its hypotheses discharged. -/
theorem analyzeRouteShade_spec_witness :
    (analyzeRouteShade AdvancedShade.demoMath cDistA ⟨-1/10, 0, -6, 0⟩ cRoute
        [cBuilding]).shadePercentage = 100 ∧
    (0 ≤ (analyzeRouteShade AdvancedShade.demoMath cDistB cSun cRoute
        [cBuilding]).shadePercentage ∧
      (analyzeRouteShade AdvancedShade.demoMath cDistB cSun cRoute
        [cBuilding]).shadePercentage ≤ 100) := by
  constructor
  · exact ((analyzeRouteShade_spec AdvancedShade.demoMath cDistA ⟨-1/10, 0, -6, 0⟩
      cRoute [cBuilding]).1 (by norm_num)).1
  · refine ((analyzeRouteShade_spec AdvancedShade.demoMath cDistB cSun cRoute
      [cBuilding]).2 (by norm_num [cSun]) ?_ ?_).1
    · intro e _
      simp only [cDistB]
      split_ifs <;> norm_num
    · rw [show shadowsOf AdvancedShade.demoMath cSun cRoute [cBuilding]
          = [⟨"cb", cPolygon, 11/20⟩] from by rw [shadowsOf, cGeomLat, cShadows_eval]]
      rw [cTotalB]
      norm_num

end RouteAnalyzer
